import Mathlib

/-!
# AWS IoT WiFi sketch for the MKR WiFi 1010: a model of `main.cpp`

The sketch is a sequential program that only talks to vendor libraries
(`Serial`, `WiFi`, `mqttClient`, `millis`, `delay`, `random`).  The model is
a shallow embedding with explicit state passing:

* `Event` is one call made by the sketch into a library, with its arguments;
* `World` is the program state: the trace of calls made so far, the global
  `lastMillis`, and the inbound message the MQTT client currently holds;
* `Env` is the behaviour of the libraries: for every library call that
  returns a value, the value returned by its `k`-th call (counting from 0
  over the whole run), together with the constants the sketch takes from
  headers that are not part of `main.cpp`.

Quantifying over `Env` quantifies over every behaviour of the libraries.

`connectWiFi`, `connectMQTT`, `publishMessage`, `onMessageReceived` and `loop`
are modelled statement by statement.  `setup` and `getTime` only configure the
libraries; of `setup` the model keeps the one effect that `loop` depends on,
the registration `mqttClient.onMessage(onMessageReceived)`: `mqttClient.poll()`
runs `onMessageReceived` for every inbound message it receives, so that the
calls of the handler are part of the calls of the tick.
-/

namespace AwsIotWiFi

/-- One call of the sketch into a library, with the arguments it passes. -/
inductive Event where
  | serialPrint (s : String)
  | serialPrintln (s : String)
  | serialPrintChar (c : Nat)
  | delay (ms : Nat)
  | wifiStatus
  | wifiScanNetworks
  | wifiBegin (ssid pass : String)
  | mqttConnected
  | mqttConnect (host : String) (port : Nat)
  | mqttSubscribe (topic : String)
  | mqttPoll
  | mqttBeginMessage (topic : String)
  | mqttPrint (s : String)
  | mqttEndMessage
  | mqttMessageTopic
  | mqttAvailable
  | mqttRead
  | millis
  | random (lo hi : Int)
  deriving DecidableEq, Repr

/-- Behaviour of the libraries and the constants of the missing headers.
`SECRET_*` are the macros of `arduino_secrets.h`; `WL_CONNECTED` is the
status code of the WiFi library.  Each function gives the value returned by
the `k`-th call of the library function it is named after; for
`mqttClient.connected()` and `mqttClient.connect()`, which the sketch only
tests with `!`, it gives the truth value of the result.  `clock k` is the
number of milliseconds elapsed since start at the `k`-th call of `millis()`
by the sketch, before truncation to 32 bits.  `inbound k` is the list of
inbound messages, each a topic and a payload, that the `k`-th call of
`mqttClient.poll()` receives, in order of arrival. -/
structure Env where
  SECRET_SSID : String
  SECRET_PASS : String
  SECRET_BROKER : String
  SECRET_CERTIFICATE : String
  WL_CONNECTED : Nat
  wifiStatus : Nat → Nat
  wifiScanNetworks : Nat → Int
  wifiBegin : Nat → Nat
  mqttConnected : Nat → Bool
  mqttConnect : Nat → Bool
  clock : Nat → Nat
  random : Nat → Int → Int → Int
  inbound : Nat → List (String × List (Fin 256))

/-- Program state: calls made so far, the global `lastMillis`, and the
inbound message held by the MQTT client (its topic and unread bytes). -/
structure World where
  trace : List Event
  lastMillis : Nat
  rxTopic : String
  rx : List (Fin 256)

/-- State at reset: nothing called yet, `lastMillis = 0`, no inbound message. -/
def World.init : World :=
  { trace := [], lastMillis := 0, rxTopic := "", rx := [] }

/-- Record one library call. -/
def World.emit (w : World) (e : Event) : World :=
  { w with trace := w.trace ++ [e] }

/-- The state `w` after the further calls `evs`, nothing else changed. -/
def World.extend (w : World) (evs : List Event) : World :=
  { w with trace := w.trace ++ evs }

/-- The block of calls `b`, `n` times in a row. -/
def times : Nat → List Event → List Event
  | 0, _ => []
  | n + 1, b => b ++ times n b

/-- Number of calls in a trace that satisfy `p`. -/
def calls (p : Event → Bool) (tr : List Event) : Nat :=
  tr.countP p

def Event.isWifiStatus : Event → Bool
  | .wifiStatus => true
  | _ => false

def Event.isWifiScanNetworks : Event → Bool
  | .wifiScanNetworks => true
  | _ => false

def Event.isWifiBegin : Event → Bool
  | .wifiBegin _ _ => true
  | _ => false

def Event.isMqttConnected : Event → Bool
  | .mqttConnected => true
  | _ => false

def Event.isMqttConnect : Event → Bool
  | .mqttConnect _ _ => true
  | _ => false

def Event.isMqttSubscribe : Event → Bool
  | .mqttSubscribe _ => true
  | _ => false

def Event.isMqttPoll : Event → Bool
  | .mqttPoll => true
  | _ => false

def Event.isMqttBeginMessage : Event → Bool
  | .mqttBeginMessage _ => true
  | _ => false

def Event.isMqttEndMessage : Event → Bool
  | .mqttEndMessage => true
  | _ => false

def Event.isMqttRead : Event → Bool
  | .mqttRead => true
  | _ => false

def Event.isMillis : Event → Bool
  | .millis => true
  | _ => false

def Event.isRandom : Event → Bool
  | .random _ _ => true
  | _ => false

def Event.isDelay : Event → Bool
  | .delay _ => true
  | _ => false

/-- A retry dot: `Serial.print(".")`. -/
def Event.isDot : Event → Bool
  | .serialPrint s => s == "."
  | _ => false

/-! ## Library calls -/

/-- `Serial.print(text)`. -/
def Serial.print (s : String) (w : World) : World :=
  w.emit (.serialPrint s)

/-- `Serial.println(text)`; `Serial.println()` is `Serial.println ""`. -/
def Serial.println (s : String) (w : World) : World :=
  w.emit (.serialPrintln s)

/-- `Serial.print(char)`. -/
def Serial.printChar (c : Nat) (w : World) : World :=
  w.emit (.serialPrintChar c)

/-- `delay(ms)`. -/
def delay (ms : Nat) (w : World) : World :=
  w.emit (.delay ms)

/-- `WiFi.status()`. -/
def WiFi.status (env : Env) (w : World) : Nat × World :=
  (env.wifiStatus (calls Event.isWifiStatus w.trace), w.emit .wifiStatus)

/-- `WiFi.scanNetworks()`. -/
def WiFi.scanNetworks (env : Env) (w : World) : Int × World :=
  (env.wifiScanNetworks (calls Event.isWifiScanNetworks w.trace), w.emit .wifiScanNetworks)

/-- `WiFi.begin(ssid, pass)`. -/
def WiFi.begin (env : Env) (ssid pass : String) (w : World) : Nat × World :=
  (env.wifiBegin (calls Event.isWifiBegin w.trace), w.emit (.wifiBegin ssid pass))

/-- `mqttClient.connected()`. -/
def mqttClient.connected (env : Env) (w : World) : Bool × World :=
  (env.mqttConnected (calls Event.isMqttConnected w.trace), w.emit .mqttConnected)

/-- `mqttClient.connect(host, port)`. -/
def mqttClient.connect (env : Env) (host : String) (port : Nat) (w : World) : Bool × World :=
  (env.mqttConnect (calls Event.isMqttConnect w.trace), w.emit (.mqttConnect host port))

/-- `mqttClient.subscribe(topic)`. -/
def mqttClient.subscribe (topic : String) (w : World) : World :=
  w.emit (.mqttSubscribe topic)

/-- `mqttClient.beginMessage(topic)`. -/
def mqttClient.beginMessage (topic : String) (w : World) : World :=
  w.emit (.mqttBeginMessage topic)

/-- `mqttClient.print(text)`; a number is printed as its decimal rendering. -/
def mqttClient.print (s : String) (w : World) : World :=
  w.emit (.mqttPrint s)

/-- `mqttClient.endMessage()`. -/
def mqttClient.endMessage (w : World) : World :=
  w.emit .mqttEndMessage

/-- `mqttClient.messageTopic()`. -/
def mqttClient.messageTopic (w : World) : String × World :=
  (w.rxTopic, w.emit .mqttMessageTopic)

/-- `mqttClient.available()`: number of unread bytes of the inbound message. -/
def mqttClient.available (w : World) : Int × World :=
  ((w.rx.length : Int), w.emit .mqttAvailable)

/-- `mqttClient.read()`: next unread byte, or `-1` when there is none. -/
def mqttClient.read (w : World) : Int × World :=
  match w.rx with
  | [] => (-1, w.emit .mqttRead)
  | b :: rest => ((b.val : Int), { w.emit .mqttRead with rx := rest })

/-- `millis()`: the millisecond counter, an `unsigned long` of 32 bits. -/
def millis (env : Env) (w : World) : Nat × World :=
  (env.clock (calls Event.isMillis w.trace) % 2 ^ 32, w.emit .millis)

/-- `random(lo, hi)`. -/
def random (env : Env) (lo hi : Int) (w : World) : Int × World :=
  (env.random (calls Event.isRandom w.trace) lo hi, w.emit (.random lo hi))

/-- Subtraction of two `unsigned long` values, modulo `2 ^ 32`. -/
def sub32 (a b : Nat) : Nat :=
  (a % 2 ^ 32 + (2 ^ 32 - b % 2 ^ 32)) % 2 ^ 32

/-- The cast `(char)` of an `int`: its low 8 bits. -/
def toChar (r : Int) : Nat :=
  (r % 256).toNat

/-! ## The sketch -/

/-- `const char ssid[] = SECRET_SSID;` -/
def ssid (env : Env) : String := env.SECRET_SSID

/-- `const char pass[] = SECRET_PASS;` -/
def pass (env : Env) : String := env.SECRET_PASS

/-- `const char broker[] = SECRET_BROKER;` -/
def broker (env : Env) : String := env.SECRET_BROKER

/-- `const int maxRetries = 10;` of `connectWiFi`. -/
def maxRetries : Nat := 10

/-- The `while (!connected && retryCount < maxRetries)` loop of `connectWiFi`,
from the given values of its two locals; returns their final values. -/
def connectWiFiLoop (env : Env) (connected : Bool) (retryCount : Nat) (w : World) :
    Bool × Nat × World :=
  if h : connected = false ∧ retryCount < maxRetries then
    if (WiFi.begin env (ssid env) (pass env) w).1 = env.WL_CONNECTED then
      connectWiFiLoop env true retryCount (WiFi.begin env (ssid env) (pass env) w).2
    else
      connectWiFiLoop env false (retryCount + 1)
        (delay 1000 (Serial.print "." (WiFi.begin env (ssid env) (pass env) w).2))
  else
    (connected, retryCount, w)
termination_by (maxRetries - retryCount) + (if connected then 0 else 1)
decreasing_by
  · simp [h.1]
  · have h2 : retryCount < 10 := h.2
    simp only [h.1, maxRetries]
    simp
    omega

/-- `void connectWiFi()`. -/
def connectWiFi (env : Env) (w : World) : World :=
  let w := Serial.print "Attempting to connect to the SSID: " w
  let w := Serial.print (ssid env) w
  let w := Serial.print " " w
  let r := connectWiFiLoop env false 0 w
  let w := r.2.2
  if r.1 then
    let w := Serial.println "" w
    let w := Serial.println "You're connected to the network" w
    Serial.println "" w
  else
    let w := Serial.println "" w
    Serial.println "Failed to connect to the network after multiple attempts." w

/-- The `while (!mqttClient.connect(broker, 8883))` loop of `connectMQTT`.
The loop has no bound, so the model takes the number of iterations it may
run; `none` means the loop was still running when they were used up. -/
def connectMQTTLoop (env : Env) : Nat → World → Option World
  | 0, _ => none
  | fuel + 1, w =>
    let r := mqttClient.connect env (broker env) 8883 w
    if !r.1 then
      connectMQTTLoop env fuel (delay 3000 (Serial.print "." r.2))
    else
      some r.2

/-- `void connectMQTT()`. -/
def connectMQTT (env : Env) (fuel : Nat) (w : World) : Option World :=
  let w := Serial.print "Attempting to MQTT broker: " w
  let w := Serial.print (broker env) w
  let w := Serial.println " " w
  match connectMQTTLoop env fuel w with
  | none => none
  | some w =>
    let w := Serial.println "" w
    let w := Serial.println "You're connected to the MQTT broker" w
    let w := Serial.println "" w
    some (mqttClient.subscribe "arduino/incoming" w)

/-- `void publishMessage()`. -/
def publishMessage (env : Env) (w : World) : World :=
  let w := Serial.println "Publishing message" w
  let w := mqttClient.beginMessage "arduino/outgoing" w
  let w := mqttClient.print "\x7b\"deviceModel\": \"MKR 1010\" " w
  let w := mqttClient.print ",\"temperature\": " w
  let t := random env 15 30 w
  let w := mqttClient.print (toString t.1) t.2
  let w := mqttClient.print ",\"humidity\": " w
  let h := random env 1 500 w
  let w := mqttClient.print (toString h.1) h.2
  let w := mqttClient.print ",\"vehicleId\": \"MKR1010-1" w
  let w := mqttClient.print "\"\x7d" w
  mqttClient.endMessage w

/-- The `while (mqttClient.available())` loop of `onMessageReceived`. -/
def drainLoop (w : World) : World :=
  if (mqttClient.available w).1 ≠ 0 then
    let r := mqttClient.read (mqttClient.available w).2
    drainLoop (Serial.printChar (toChar r.1) r.2)
  else
    (mqttClient.available w).2
termination_by w.rx.length
decreasing_by
  rename_i h
  simp only [mqttClient.available, mqttClient.read, World.emit, Serial.printChar] at h ⊢
  cases hrx : w.rx with
  | nil => simp [hrx] at h
  | cons b rest => simp

/-- `void onMessageReceived(int messageSize)`. -/
def onMessageReceived (messageSize : Int) (w : World) : World :=
  let w := Serial.print "Received a message with topic '" w
  let t := mqttClient.messageTopic w
  let w := Serial.print t.1 t.2
  let w := Serial.print "', length " w
  let w := Serial.print (toString messageSize) w
  let w := Serial.println " bytes:" w
  let w := drainLoop w
  let w := Serial.println "" w
  Serial.println "" w

/-- `mqttClient.poll()`, with the callback that `setup` registers by
`mqttClient.onMessage(onMessageReceived)`: for each inbound message that this
call receives, in order, the library makes the topic and the payload of the
message the ones the client holds and invokes `onMessageReceived` with the
length of the payload. -/
def mqttClient.poll (env : Env) (w : World) : World :=
  (env.inbound (calls Event.isMqttPoll w.trace)).foldl
    (fun v msg => onMessageReceived (msg.2.length : Int) { v with rxTopic := msg.1, rx := msg.2 })
    (w.emit .mqttPoll)

/-- `void loop()`: one tick.  `fuel` bounds the iterations of the unbounded
loop of `connectMQTT`; `none` means the tick did not complete within it. -/
def loop (env : Env) (fuel : Nat) (w : World) : Option World :=
  let s := WiFi.status env w
  let w :=
    if s.1 ≠ env.WL_CONNECTED then
      let numNetworks := WiFi.scanNetworks env s.2
      let w := Serial.println ("Discovered " ++ toString numNetworks.1 ++ " Networks") numNetworks.2
      connectWiFi env w
    else
      s.2
  let c := mqttClient.connected env w
  match (if !c.1 then connectMQTT env fuel c.2 else some c.2) with
  | none => none
  | some w =>
    let w := mqttClient.poll env w
    let m := millis env w
    if sub32 m.1 m.2.lastMillis > 1000 then
      let m2 := millis env m.2
      some (publishMessage env { m2.2 with lastMillis := m2.1 })
    else
      some m.2

/-- First statement of `loop`: the network check. -/
def loopNetwork (env : Env) (w : World) : World :=
  let s := WiFi.status env w
  if s.1 ≠ env.WL_CONNECTED then
    let numNetworks := WiFi.scanNetworks env s.2
    let w := Serial.println ("Discovered " ++ toString numNetworks.1 ++ " Networks") numNetworks.2
    connectWiFi env w
  else
    s.2

/-- Second statement of `loop`: the session check. -/
def loopSession (env : Env) (fuel : Nat) (w : World) : Option World :=
  let c := mqttClient.connected env w
  if !c.1 then connectMQTT env fuel c.2 else some c.2

/-- Rest of `loop`: the poll, then the publish when it is due. -/
def loopPublish (env : Env) (w : World) : World :=
  let w := mqttClient.poll env w
  let m := millis env w
  if sub32 m.1 m.2.lastMillis > 1000 then
    let m2 := millis env m.2
    publishMessage env { m2.2 with lastMillis := m2.1 }
  else
    m.2

/-- The platform calls `loop()` forever; `runLoop env fuel n` is `n` ticks. -/
def runLoop (env : Env) (fuel : Nat) : Nat → World → Option World
  | 0, w => some w
  | n + 1, w =>
    match loop env fuel w with
    | none => none
    | some w => runLoop env fuel n w

/-! ## Expected behaviour, in the words of the specification -/

/-- The next `n` calls of `WiFi.begin` from state `w` all return a status
other than `WL_CONNECTED`. -/
def joinFails (env : Env) (w : World) (n : Nat) : Prop :=
  ∀ i, i < n → env.wifiBegin (calls Event.isWifiBegin w.trace + i) ≠ env.WL_CONNECTED

instance (env : Env) (w : World) (n : Nat) : Decidable (joinFails env w n) :=
  inferInstanceAs (Decidable (∀ i, i < n → _))

/-- After `n` further calls of `WiFi.begin` from state `w`, the next call
returns `WL_CONNECTED`. -/
def joinSucceedsAfter (env : Env) (w : World) (n : Nat) : Prop :=
  env.wifiBegin (calls Event.isWifiBegin w.trace + n) = env.WL_CONNECTED

instance (env : Env) (w : World) (n : Nat) : Decidable (joinSucceedsAfter env w n) :=
  inferInstanceAs (Decidable (_ = _))

/-- The next `n` calls of `mqttClient.connect` from state `w` all fail. -/
def connectFails (env : Env) (w : World) (n : Nat) : Prop :=
  ∀ i, i < n → env.mqttConnect (calls Event.isMqttConnect w.trace + i) = false

instance (env : Env) (w : World) (n : Nat) : Decidable (connectFails env w n) :=
  inferInstanceAs (Decidable (∀ i, i < n → _))

/-- After `n` further calls of `mqttClient.connect` from state `w`, the next
call succeeds. -/
def connectSucceedsAfter (env : Env) (w : World) (n : Nat) : Prop :=
  env.mqttConnect (calls Event.isMqttConnect w.trace + n) = true

instance (env : Env) (w : World) (n : Nat) : Decidable (connectSucceedsAfter env w n) :=
  inferInstanceAs (Decidable (_ = _))

/-- One failed join: the call, a retry dot, the 1000 ms delay. -/
def joinRetry (env : Env) : List Event :=
  [.wifiBegin (ssid env) (pass env), .serialPrint ".", .delay 1000]

/-- What `connectWiFi` prints before its first join call. -/
def connectWiFiBanner (env : Env) : List Event :=
  [.serialPrint "Attempting to connect to the SSID: ", .serialPrint (ssid env), .serialPrint " "]

/-- Calls of a `connectWiFi` that joins on call `n + 1`. -/
def connectWiFiJoined (env : Env) (n : Nat) : List Event :=
  connectWiFiBanner env ++ times n (joinRetry env) ++
    [.wifiBegin (ssid env) (pass env), .serialPrintln "",
     .serialPrintln "You're connected to the network", .serialPrintln ""]

/-- Calls of a `connectWiFi` that gives up. -/
def connectWiFiGaveUp (env : Env) : List Event :=
  connectWiFiBanner env ++ times 10 (joinRetry env) ++
    [.serialPrintln "",
     .serialPrintln "Failed to connect to the network after multiple attempts."]

/-- One failed secure connect: the call, a retry dot, the 3000 ms delay. -/
def connectRetry (env : Env) : List Event :=
  [.mqttConnect (broker env) 8883, .serialPrint ".", .delay 3000]

/-- Calls of a `connectMQTT` whose connect succeeds on call `n + 1`. -/
def connectMQTTDone (env : Env) (n : Nat) : List Event :=
  [.serialPrint "Attempting to MQTT broker: ", .serialPrint (broker env), .serialPrintln " "] ++
    times n (connectRetry env) ++
    [.mqttConnect (broker env) 8883, .serialPrintln "",
     .serialPrintln "You're connected to the MQTT broker", .serialPrintln "",
     .mqttSubscribe "arduino/incoming"]

/-- Value that `WiFi.status()` returns in the tick that starts in state `w`. -/
def tickStatus (env : Env) (w : World) : Nat :=
  env.wifiStatus (calls Event.isWifiStatus w.trace)

/-- Value that `mqttClient.connected()` returns in the tick that starts in state `w`. -/
def tickConnected (env : Env) (w : World) : Bool :=
  env.mqttConnected (calls Event.isMqttConnected w.trace)

/-- Elapsed time in unsigned 32-bit arithmetic, in the words of the
specification: the difference of the two counter values as integers, reduced
to its residue in `[0, 2 ^ 32)`. -/
def elapsed32 (now last : Nat) : Nat :=
  (((now : Int) - (last : Int)) % 4294967296).toNat

/-- Value of `millis() - lastMillis` in the condition of the tick that starts
in state `w`: the value of the first `millis()` call of the tick against the
stored `lastMillis`, in unsigned 32-bit arithmetic. -/
def tickElapsed (env : Env) (w : World) : Nat :=
  elapsed32 (env.clock (calls Event.isMillis w.trace) % 2 ^ 32) w.lastMillis

/-- Inbound messages that the poll of the tick that starts in state `w` receives. -/
def tickInbound (env : Env) (w : World) : List (String × List (Fin 256)) :=
  env.inbound (calls Event.isMqttPoll w.trace)

/-- What the tick that starts in state `w` prints after its network scan. -/
def scanReport (env : Env) (w : World) : Event :=
  .serialPrintln ("Discovered " ++
    toString (env.wifiScanNetworks (calls Event.isWifiScanNetworks w.trace)) ++ " Networks")

/-- Calls of the network part of the tick that starts in state `w`, after its
`WiFi.status()` call: none when the status is `WL_CONNECTED`; otherwise a scan,
its report, and a `connectWiFi` that joins or gives up. -/
def NetPart (env : Env) (w : World) (net : List Event) : Prop :=
  (tickStatus env w = env.WL_CONNECTED ∧ net = []) ∨
  (tickStatus env w ≠ env.WL_CONNECTED ∧
    ∃ n, n < maxRetries ∧ joinFails env w n ∧ joinSucceedsAfter env w n ∧
      net = [.wifiScanNetworks, scanReport env w] ++ connectWiFiJoined env n) ∨
  (tickStatus env w ≠ env.WL_CONNECTED ∧ joinFails env w maxRetries ∧
    net = [.wifiScanNetworks, scanReport env w] ++ connectWiFiGaveUp env)

/-- Calls of the session part of the tick that starts in state `w`, after its
`mqttClient.connected()` call: none when the session is connected; otherwise a
`connectMQTT` whose connect succeeds on some call `n + 1 ≤ fuel`. -/
def MqttPart (env : Env) (fuel : Nat) (w : World) (mq : List Event) : Prop :=
  (tickConnected env w = true ∧ mq = []) ∨
  (tickConnected env w = false ∧
    ∃ n, n < fuel ∧ connectFails env w n ∧ connectSucceedsAfter env w n ∧
      mq = connectMQTTDone env n)

/-- Calls of `publishMessage` when `k` calls of `random` have been made before. -/
def publishCalls (env : Env) (k : Nat) : List Event :=
  [.serialPrintln "Publishing message", .mqttBeginMessage "arduino/outgoing",
   .mqttPrint "\x7b\"deviceModel\": \"MKR 1010\" ", .mqttPrint ",\"temperature\": ",
   .random 15 30, .mqttPrint (toString (env.random k 15 30)),
   .mqttPrint ",\"humidity\": ", .random 1 500, .mqttPrint (toString (env.random (k + 1) 1 500)),
   .mqttPrint ",\"vehicleId\": \"MKR1010-1", .mqttPrint "\"\x7d", .mqttEndMessage]

/-- Text of a message: what the `mqttClient.print` calls among `evs` print,
concatenated in order. -/
def printed : List Event → String
  | [] => ""
  | .mqttPrint s :: rest => s ++ printed rest
  | _ :: rest => printed rest

/-- Characters echoed to the console: the arguments of the `Serial.print(char)`
calls among `evs`, in order. -/
def echoed : List Event → List Nat
  | [] => []
  | .serialPrintChar c :: rest => c :: echoed rest
  | _ :: rest => echoed rest

/-- Draining the bytes `bs`: for each byte an `available()` call, a `read()`
call and the echo of that byte. -/
def drained : List (Fin 256) → List Event
  | [] => []
  | b :: rest => [.mqttAvailable, .mqttRead, .serialPrintChar b.val] ++ drained rest

/-- Calls of `onMessageReceived` for one inbound message `msg`, a topic and a
payload, delivered with the length of the payload. -/
def handlerCalls (msg : String × List (Fin 256)) : List Event :=
  [.serialPrint "Received a message with topic '", .mqttMessageTopic,
   .serialPrint msg.1, .serialPrint "', length ", .serialPrint (toString (msg.2.length : Int)),
   .serialPrintln " bytes:"] ++ drained msg.2 ++
  [.mqttAvailable, .serialPrintln "", .serialPrintln ""]

/-- Calls of the handler for the inbound messages `msgs`, one after the other. -/
def inboundCalls : List (String × List (Fin 256)) → List Event
  | [] => []
  | msg :: rest => handlerCalls msg ++ inboundCalls rest

/-- The message the client holds after the inbound messages `msgs` have been
handled: the topic of the last one, no unread byte; unchanged when there is none. -/
def World.received : World → List (String × List (Fin 256)) → World
  | w, [] => w
  | w, msg :: rest => World.received { w with rxTopic := msg.1, rx := [] } rest

/-- Calls of the tick that starts in state `w` after its poll has returned:
one `millis()` call, and, when more than 1000 ms have elapsed, a second
`millis()` call and the calls of `publishMessage`. -/
def tickPost (env : Env) (w : World) : List Event :=
  if 1000 < tickElapsed env w then
    [.millis, .millis] ++ publishCalls env (calls Event.isRandom w.trace)
  else
    [.millis]

/-- State at the end of the tick that starts in state `w` and makes the calls
`pre` before its poll: then come the poll, the handler calls for the inbound
messages and the calls of `tickPost`; when more than 1000 ms have elapsed,
`lastMillis` holds the value of the second `millis()` call. -/
def tickEnd (env : Env) (w : World) (pre : List Event) : World :=
  { (w.received (tickInbound env w)).extend
      (pre ++ [.mqttPoll] ++ inboundCalls (tickInbound env w) ++ tickPost env w)
    with lastMillis :=
      if 1000 < tickElapsed env w then env.clock (calls Event.isMillis w.trace + 1) % 2 ^ 32
      else w.lastMillis }

/-! ## Concrete library behaviours, used as examples -/

/-- Libraries for the examples: `WiFi.status()` always returns `status` (with
`WL_CONNECTED = 3`), the first `joinFailures` calls of `WiFi.begin` return 4 and
the later ones 3, `mqttClient.connected()` always returns `connected`, the first
`connectFailures` calls of `mqttClient.connect` fail and the later ones
succeed, the `k`-th call of `millis()` happens at `period * (k + 1)` ms, and
`random(lo, hi)` returns `lo` plus 7 (even calls) or 136 (odd calls) reduced
modulo `hi - lo`, and `lo` when the range is empty; no message ever arrives. -/
def stubEnv (status joinFailures : Nat) (connected : Bool) (connectFailures period : Nat) : Env :=
  { SECRET_SSID := "home"
    SECRET_PASS := "secret"
    SECRET_BROKER := "broker.example"
    SECRET_CERTIFICATE := "cert"
    WL_CONNECTED := 3
    wifiStatus := fun _ => status
    wifiScanNetworks := fun _ => 2
    wifiBegin := fun k => if k < joinFailures then 4 else 3
    mqttConnected := fun _ => connected
    mqttConnect := fun k => decide (connectFailures ≤ k)
    clock := fun k => period * (k + 1)
    random := fun k lo hi =>
      if lo < hi then lo + (if k % 2 = 0 then 7 else 136) % (hi - lo) else lo
    inbound := fun _ => [] }

/-- Libraries for the example of a whole tick: as `stubEnv 6 3 false 2 1001`,
and the first poll receives one message, `hi` on `arduino/incoming`. -/
def inboundEnv : Env :=
  { stubEnv 6 3 false 2 1001 with
    inbound := fun k => if k = 0 then [("arduino/incoming", [104, 105])] else [] }

/-- State after one tick from reset with the libraries `inboundEnv`: the
network is joined on the fourth join call, the session is connected on the
third connect call, the poll delivers the message to the handler, and a
publish is due. -/
def afterFirstTick : World :=
  { trace :=
      [.wifiStatus, .wifiScanNetworks, .serialPrintln "Discovered 2 Networks",
        .serialPrint "Attempting to connect to the SSID: ", .serialPrint "home",
        .serialPrint " "] ++
      times 3 [.wifiBegin "home" "secret", .serialPrint ".", .delay 1000] ++
      [.wifiBegin "home" "secret", .serialPrintln "",
        .serialPrintln "You're connected to the network", .serialPrintln "",
        .mqttConnected,
        .serialPrint "Attempting to MQTT broker: ", .serialPrint "broker.example",
        .serialPrintln " "] ++
      times 2 [.mqttConnect "broker.example" 8883, .serialPrint ".", .delay 3000] ++
      [.mqttConnect "broker.example" 8883, .serialPrintln "",
        .serialPrintln "You're connected to the MQTT broker", .serialPrintln "",
        .mqttSubscribe "arduino/incoming",
        .mqttPoll,
        .serialPrint "Received a message with topic '", .mqttMessageTopic,
        .serialPrint "arduino/incoming", .serialPrint "', length ", .serialPrint "2",
        .serialPrintln " bytes:",
        .mqttAvailable, .mqttRead, .serialPrintChar 104,
        .mqttAvailable, .mqttRead, .serialPrintChar 105,
        .mqttAvailable, .serialPrintln "", .serialPrintln "",
        .millis, .millis,
        .serialPrintln "Publishing message", .mqttBeginMessage "arduino/outgoing",
        .mqttPrint "\x7b\"deviceModel\": \"MKR 1010\" ", .mqttPrint ",\"temperature\": ",
        .random 15 30, .mqttPrint "22", .mqttPrint ",\"humidity\": ", .random 1 500,
        .mqttPrint "137", .mqttPrint ",\"vehicleId\": \"MKR1010-1", .mqttPrint "\"\x7d",
        .mqttEndMessage]
    lastMillis := 2002
    rxTopic := "arduino/incoming"
    rx := [] }

/-- Libraries for the example of the publish period: network and session stay
connected, no message arrives, and the `k`-th call of `millis()` happens at
`4294966499 + 501 * k` ms, so that the 32-bit counter wraps around between the
second call (4294967000) and the third (4294967501, counter value 205). -/
def wrapEnv : Env :=
  { stubEnv 3 0 true 0 501 with clock := fun k => 4294966499 + 501 * k }

/-- Calls of a tick of `wrapEnv` that does not publish. -/
def steadyQuiet : List Event :=
  [.wifiStatus, .mqttConnected, .mqttPoll, .millis]

/-- Calls of a tick of `wrapEnv` that publishes. -/
def steadyPublish : List Event :=
  [.wifiStatus, .mqttConnected, .mqttPoll, .millis, .millis,
   .serialPrintln "Publishing message", .mqttBeginMessage "arduino/outgoing",
   .mqttPrint "\x7b\"deviceModel\": \"MKR 1010\" ", .mqttPrint ",\"temperature\": ",
   .random 15 30, .mqttPrint "22", .mqttPrint ",\"humidity\": ", .random 1 500,
   .mqttPrint "137", .mqttPrint ",\"vehicleId\": \"MKR1010-1", .mqttPrint "\"\x7d",
   .mqttEndMessage]

/-- State of `wrapEnv` after the first tick from reset: its `millis()` reads
4294966499, a publish, stamped 4294967000. -/
def wrap1 : World :=
  { World.init.extend steadyPublish with lastMillis := 4294967000 }

/-- State after the second tick: its `millis()` reads 205 after the
wraparound, 501 ms after the stamp: no publish. -/
def wrap2 : World :=
  wrap1.extend steadyQuiet

/-- State after the third tick: its `millis()` reads 706, 1002 ms after the
stamp: a publish, stamped 1207. -/
def wrap3 : World :=
  { wrap2.extend steadyPublish with lastMillis := 1207 }

/-! ## Properties -/

@[simp] theorem World.emit_eq (w : World) (e : Event) : w.emit e = w.extend [e] := rfl

@[simp] theorem World.extend_extend (w : World) (a b : List Event) :
    (w.extend a).extend b = w.extend (a ++ b) := by
  simp [World.extend, List.append_assoc]

@[simp] theorem World.extend_trace (w : World) (a : List Event) :
    (w.extend a).trace = w.trace ++ a := rfl

@[simp] theorem World.extend_lastMillis (w : World) (a : List Event) :
    (w.extend a).lastMillis = w.lastMillis := rfl

@[simp] theorem World.extend_rx (w : World) (a : List Event) :
    (w.extend a).rx = w.rx := rfl

@[simp] theorem World.extend_rxTopic (w : World) (a : List Event) :
    (w.extend a).rxTopic = w.rxTopic := rfl

theorem World.extend_nil (w : World) : w.extend [] = w := by
  simp [World.extend]

@[simp] theorem calls_nil (p : Event → Bool) : calls p [] = 0 := rfl

@[simp] theorem calls_append (p : Event → Bool) (a b : List Event) :
    calls p (a ++ b) = calls p a + calls p b := by
  simp [calls, List.countP_append]

@[simp] theorem calls_cons (p : Event → Bool) (e : Event) (a : List Event) :
    calls p (e :: a) = calls p a + (if p e then 1 else 0) := by
  simp [calls, List.countP_cons]

@[simp] theorem calls_times (p : Event → Bool) (n : Nat) (b : List Event) :
    calls p (times n b) = n * calls p b := by
  induction n with
  | zero => simp [times]
  | succ n ih => simp [times, ih, Nat.succ_mul, Nat.add_comm]

/-- The loop of `connectWiFi` when the join succeeds on call `n + 1`, within the retry budget. -/
theorem connectWiFiLoop_joined (env : Env) :
    ∀ (n retryCount : Nat) (w : World), retryCount + n < maxRetries →
      joinFails env w n → joinSucceedsAfter env w n →
      connectWiFiLoop env false retryCount w =
        (true, retryCount + n,
          w.extend (times n (joinRetry env) ++ [.wifiBegin (ssid env) (pass env)])) := by
  intro n
  induction n with
  | zero =>
    intro retryCount w hlt _ hok
    have hok2 : env.wifiBegin (calls Event.isWifiBegin w.trace) = env.WL_CONNECTED := by
      simpa [joinSucceedsAfter] using hok
    have hlt2 : retryCount < maxRetries := by omega
    rw [connectWiFiLoop]
    simp only [WiFi.begin, hok2, hlt2, and_self, dite_true, if_true, World.emit_eq]
    rw [connectWiFiLoop]
    simp [times]
  | succ n ih =>
    intro retryCount w hlt hfail hok
    have h0 : env.wifiBegin (calls Event.isWifiBegin w.trace) ≠ env.WL_CONNECTED := by
      simpa using hfail 0 (Nat.succ_pos n)
    have hlt2 : retryCount < maxRetries := by omega
    rw [connectWiFiLoop]
    simp only [WiFi.begin, h0, hlt2, and_self, dite_true, if_false, delay, Serial.print,
      World.emit_eq, World.extend_extend]
    have hc : calls Event.isWifiBegin
        (w.extend ([Event.wifiBegin (ssid env) (pass env)] ++ [Event.serialPrint "."] ++
          [Event.delay 1000])).trace = calls Event.isWifiBegin w.trace + 1 := by
      simp [Event.isWifiBegin]
    rw [ih (retryCount + 1) _ (by omega)]
    · simp [times, joinRetry, Nat.add_assoc, Nat.add_comm 1 n]
    · intro i hi
      rw [hc]
      have := hfail (i + 1) (by omega)
      simpa [Nat.add_assoc, Nat.add_comm 1 i] using this
    · unfold joinSucceedsAfter
      rw [hc]
      simpa [joinSucceedsAfter, Nat.add_assoc, Nat.add_comm 1 n] using hok

/-- The loop of `connectWiFi` when every join call of the remaining budget fails. -/
theorem connectWiFiLoop_gaveUp (env : Env) :
    ∀ (n retryCount : Nat) (w : World), retryCount + n = maxRetries →
      joinFails env w n →
      connectWiFiLoop env false retryCount w =
        (false, maxRetries, w.extend (times n (joinRetry env))) := by
  intro n
  induction n with
  | zero =>
    intro retryCount w heq _
    have hge : ¬ retryCount < maxRetries := by omega
    rw [connectWiFiLoop]
    simp only [hge, and_false, dite_false, times, World.extend_nil]
    simp at heq
    rw [heq]
  | succ n ih =>
    intro retryCount w heq hfail
    have h0 : env.wifiBegin (calls Event.isWifiBegin w.trace) ≠ env.WL_CONNECTED := by
      simpa using hfail 0 (Nat.succ_pos n)
    have hlt2 : retryCount < maxRetries := by omega
    rw [connectWiFiLoop]
    simp only [WiFi.begin, h0, hlt2, and_self, dite_true, if_false, delay, Serial.print,
      World.emit_eq, World.extend_extend]
    have hc : calls Event.isWifiBegin
        (w.extend ([Event.wifiBegin (ssid env) (pass env)] ++ [Event.serialPrint "."] ++
          [Event.delay 1000])).trace = calls Event.isWifiBegin w.trace + 1 := by
      simp [Event.isWifiBegin]
    rw [ih (retryCount + 1) _ (by omega)]
    · simp [times, joinRetry]
    · intro i hi
      rw [hc]
      have := hfail (i + 1) (by omega)
      simpa [Nat.add_assoc, Nat.add_comm 1 i] using this

theorem joinFails_congr (env : Env) (w1 w2 : World) (n : Nat)
    (h : calls Event.isWifiBegin w1.trace = calls Event.isWifiBegin w2.trace) :
    joinFails env w1 n ↔ joinFails env w2 n := by
  simp [joinFails, h]

theorem joinSucceedsAfter_congr (env : Env) (w1 w2 : World) (n : Nat)
    (h : calls Event.isWifiBegin w1.trace = calls Event.isWifiBegin w2.trace) :
    joinSucceedsAfter env w1 n ↔ joinSucceedsAfter env w2 n := by
  simp [joinSucceedsAfter, h]

theorem calls_isWifiBegin_banner (env : Env) (w : World) :
    calls Event.isWifiBegin (w.extend (connectWiFiBanner env)).trace =
      calls Event.isWifiBegin w.trace := by
  simp [connectWiFiBanner, Event.isWifiBegin]

/-- A `connectWiFi` whose join succeeds on call `n + 1 ≤ 10`. -/
theorem connectWiFi_joined (env : Env) (w : World) (n : Nat) (hn : n < maxRetries)
    (hfail : joinFails env w n) (hok : joinSucceedsAfter env w n) :
    connectWiFi env w = w.extend (connectWiFiJoined env n) := by
  have hb := calls_isWifiBegin_banner env w
  have h1 := connectWiFiLoop_joined env n 0 (w.extend (connectWiFiBanner env)) (by omega)
    ((joinFails_congr env _ _ n hb).2 hfail) ((joinSucceedsAfter_congr env _ _ n hb).2 hok)
  unfold connectWiFi
  simp only [Serial.print, Serial.println, World.emit_eq, World.extend_extend]
  simp only [connectWiFiBanner, World.extend_extend] at h1
  simp only [List.cons_append, List.nil_append, List.singleton_append]
  rw [h1]
  simp [connectWiFiJoined, connectWiFiBanner]

/-- A `connectWiFi` whose ten join calls all fail. -/
theorem connectWiFi_gaveUp (env : Env) (w : World) (hfail : joinFails env w maxRetries) :
    connectWiFi env w = w.extend (connectWiFiGaveUp env) := by
  have hb := calls_isWifiBegin_banner env w
  have h1 := connectWiFiLoop_gaveUp env maxRetries 0 (w.extend (connectWiFiBanner env))
    (by omega) ((joinFails_congr env _ _ _ hb).2 hfail)
  unfold connectWiFi
  simp only [Serial.print, Serial.println, World.emit_eq, World.extend_extend]
  simp only [connectWiFiBanner, World.extend_extend] at h1
  simp only [List.cons_append, List.nil_append, List.singleton_append]
  rw [h1]
  simp [connectWiFiGaveUp, connectWiFiBanner, maxRetries]

/-- Every `connectWiFi` either joins on some call `n + 1 ≤ 10` or gives up after ten. -/
theorem connectWiFi_cases (env : Env) (w : World) :
    (∃ n, n < maxRetries ∧ joinFails env w n ∧ joinSucceedsAfter env w n ∧
        connectWiFi env w = w.extend (connectWiFiJoined env n)) ∨
      (joinFails env w maxRetries ∧ connectWiFi env w = w.extend (connectWiFiGaveUp env)) := by
  by_cases h : ∃ n, n < maxRetries ∧ joinSucceedsAfter env w n
  · left
    classical
    refine ⟨Nat.find h, (Nat.find_spec h).1, ?_, (Nat.find_spec h).2, ?_⟩
    · intro i hi hcontra
      exact Nat.find_min h hi ⟨lt_trans hi (Nat.find_spec h).1, hcontra⟩
    · apply connectWiFi_joined env w _ (Nat.find_spec h).1 _ (Nat.find_spec h).2
      intro i hi hcontra
      exact Nat.find_min h hi ⟨lt_trans hi (Nat.find_spec h).1, hcontra⟩
  · right
    have hf : joinFails env w maxRetries := by
      intro i hi hcontra
      exact h ⟨i, hi, hcontra⟩
    exact ⟨hf, connectWiFi_gaveUp env w hf⟩

theorem calls_isMqttConnect_retry (env : Env) (w : World) :
    calls Event.isMqttConnect (w.extend (connectRetry env)).trace =
      calls Event.isMqttConnect w.trace + 1 := by
  simp [connectRetry, Event.isMqttConnect]

/-- The loop of `connectMQTT` when the connect succeeds on call `n + 1` and the
loop may run more than `n` iterations. -/
theorem connectMQTTLoop_done (env : Env) :
    ∀ (n fuel : Nat) (w : World), n < fuel →
      connectFails env w n → connectSucceedsAfter env w n →
      connectMQTTLoop env fuel w =
        some (w.extend (times n (connectRetry env) ++ [.mqttConnect (broker env) 8883])) := by
  intro n
  induction n with
  | zero =>
    intro fuel w hlt _ hok
    obtain ⟨f, rfl⟩ : ∃ f, fuel = f + 1 := ⟨fuel - 1, by omega⟩
    have hok2 : env.mqttConnect (calls Event.isMqttConnect w.trace) = true := by
      simpa [connectSucceedsAfter] using hok
    simp [connectMQTTLoop, mqttClient.connect, hok2, times]
  | succ n ih =>
    intro fuel w hlt hfail hok
    obtain ⟨f, rfl⟩ : ∃ f, fuel = f + 1 := ⟨fuel - 1, by omega⟩
    have h0 : env.mqttConnect (calls Event.isMqttConnect w.trace) = false := by
      simpa using hfail 0 (Nat.succ_pos n)
    have hc := calls_isMqttConnect_retry env w
    have h1 := ih f (w.extend (connectRetry env)) (by omega)
      (by
        intro i hi
        rw [hc]
        have := hfail (i + 1) (by omega)
        simpa [Nat.add_assoc, Nat.add_comm 1 i] using this)
      (by
        unfold connectSucceedsAfter
        rw [hc]
        simpa [connectSucceedsAfter, Nat.add_assoc, Nat.add_comm 1 n] using hok)
    simp only [connectMQTTLoop, mqttClient.connect, h0, Bool.not_false, if_true, delay,
      Serial.print, World.emit_eq, World.extend_extend]
    simp only [connectRetry, World.extend_extend] at h1
    simp only [List.cons_append, List.nil_append, List.singleton_append]
    rw [h1]
    simp [times, connectRetry]

/-- The loop of `connectMQTT` is still running after `fuel` iterations when the
next `fuel` connect calls all fail. -/
theorem connectMQTTLoop_none (env : Env) :
    ∀ (fuel : Nat) (w : World), connectFails env w fuel → connectMQTTLoop env fuel w = none := by
  intro fuel
  induction fuel with
  | zero => intro w _; rfl
  | succ f ih =>
    intro w hfail
    have h0 : env.mqttConnect (calls Event.isMqttConnect w.trace) = false := by
      simpa using hfail 0 (Nat.succ_pos f)
    have hc := calls_isMqttConnect_retry env w
    have h1 := ih (w.extend (connectRetry env))
      (by
        intro i hi
        rw [hc]
        have := hfail (i + 1) (by omega)
        simpa [Nat.add_assoc, Nat.add_comm 1 i] using this)
    simp only [connectMQTTLoop, mqttClient.connect, h0, Bool.not_false, if_true, delay,
      Serial.print, World.emit_eq, World.extend_extend]
    simp only [connectRetry, World.extend_extend] at h1
    simp only [List.cons_append, List.nil_append, List.singleton_append]
    exact h1

/-- Within `fuel` connect calls from `w`, either all fail or a first one succeeds. -/
theorem connect_cases (env : Env) (w : World) (fuel : Nat) :
    connectFails env w fuel ∨
      ∃ n, n < fuel ∧ connectFails env w n ∧ connectSucceedsAfter env w n := by
  by_cases h : ∃ n, n < fuel ∧ connectSucceedsAfter env w n
  · right
    classical
    refine ⟨Nat.find h, (Nat.find_spec h).1, ?_, (Nat.find_spec h).2⟩
    intro i hi
    have := Nat.find_min h hi
    simp only [connectSucceedsAfter, not_and] at this
    have h2 := this (lt_trans hi (Nat.find_spec h).1)
    simpa using h2
  · left
    intro i hi
    have : ¬ connectSucceedsAfter env w i := fun hc => h ⟨i, hi, hc⟩
    simpa [connectSucceedsAfter] using this

theorem calls_isMqttConnect_mqttBanner (env : Env) (w : World) :
    calls Event.isMqttConnect
      (w.extend [.serialPrint "Attempting to MQTT broker: ", .serialPrint (broker env),
        .serialPrintln " "]).trace = calls Event.isMqttConnect w.trace := by
  simp [Event.isMqttConnect]

theorem connectFails_congr (env : Env) (w1 w2 : World) (n : Nat)
    (h : calls Event.isMqttConnect w1.trace = calls Event.isMqttConnect w2.trace) :
    connectFails env w1 n ↔ connectFails env w2 n := by
  simp [connectFails, h]

theorem connectSucceedsAfter_congr (env : Env) (w1 w2 : World) (n : Nat)
    (h : calls Event.isMqttConnect w1.trace = calls Event.isMqttConnect w2.trace) :
    connectSucceedsAfter env w1 n ↔ connectSucceedsAfter env w2 n := by
  simp [connectSucceedsAfter, h]

/-- A `connectMQTT` whose connect succeeds on call `n + 1`, given more than `n` iterations. -/
theorem connectMQTT_done (env : Env) (n fuel : Nat) (w : World) (hn : n < fuel)
    (hfail : connectFails env w n) (hok : connectSucceedsAfter env w n) :
    connectMQTT env fuel w = some (w.extend (connectMQTTDone env n)) := by
  have hb := calls_isMqttConnect_mqttBanner env w
  have h1 := connectMQTTLoop_done env n fuel _ hn
    ((connectFails_congr env _ _ n hb).2 hfail) ((connectSucceedsAfter_congr env _ _ n hb).2 hok)
  unfold connectMQTT
  simp only [Serial.print, Serial.println, World.emit_eq, World.extend_extend]
  simp only [World.extend_extend] at h1
  simp only [List.cons_append, List.nil_append, List.singleton_append]
  rw [h1]
  simp [connectMQTTDone, mqttClient.subscribe]

/-- A `connectMQTT` whose next `fuel` connect calls all fail is still running. -/
theorem connectMQTT_none (env : Env) (fuel : Nat) (w : World) (hfail : connectFails env w fuel) :
    connectMQTT env fuel w = none := by
  have hb := calls_isMqttConnect_mqttBanner env w
  have h1 := connectMQTTLoop_none env fuel _ ((connectFails_congr env _ _ fuel hb).2 hfail)
  unfold connectMQTT
  simp only [Serial.print, Serial.println, World.emit_eq, World.extend_extend]
  simp only [List.cons_append, List.nil_append, List.singleton_append]
  rw [h1]

/-- A `connectMQTT` that returns did so on the first successful connect. -/
theorem connectMQTT_some (env : Env) (fuel : Nat) (w w1 : World)
    (h : connectMQTT env fuel w = some w1) :
    ∃ n, n < fuel ∧ connectFails env w n ∧ connectSucceedsAfter env w n ∧
      w1 = w.extend (connectMQTTDone env n) := by
  rcases connect_cases env w fuel with hf | ⟨n, hn, hf, hs⟩
  · rw [connectMQTT_none env fuel w hf] at h
    cases h
  · refine ⟨n, hn, hf, hs, ?_⟩
    rw [connectMQTT_done env n fuel w hn hf hs] at h
    exact (Option.some.inj h).symm

theorem mem_times (e : Event) (n : Nat) (b : List Event) (h : e ∈ times n b) : e ∈ b := by
  induction n with
  | zero => simp [times] at h
  | succ n ih =>
    simp only [times, List.mem_append] at h
    rcases h with h | h
    · exact h
    · exact ih h

/-- C1: for every behaviour of `WiFi.begin`, one invocation of `connectWiFi`
returns (the function is total) and, after its banner, has made at most 10 join
calls, printed at most 10 retry dots and made at most 10 delays, each of
1000 ms. -/
theorem C1_connectWiFi_at_most_ten_joins (env : Env) (w : World) :
    ∃ evs, connectWiFi env w = w.extend (connectWiFiBanner env ++ evs) ∧
      calls Event.isWifiBegin evs ≤ 10 ∧
      calls Event.isDot evs ≤ 10 ∧
      calls Event.isDelay evs ≤ 10 ∧
      ∀ e, e ∈ evs → Event.isDelay e = true → e = .delay 1000 := by
  rcases connectWiFi_cases env w with ⟨n, hn, _, _, h⟩ | ⟨_, h⟩
  · refine ⟨times n (joinRetry env) ++
      [.wifiBegin (ssid env) (pass env), .serialPrintln "",
       .serialPrintln "You're connected to the network", .serialPrintln ""], ?_, ?_, ?_, ?_, ?_⟩
    · rw [h]; simp [connectWiFiJoined]
    · simp [joinRetry, Event.isWifiBegin]; simp [maxRetries] at hn; omega
    · simp [joinRetry, Event.isDot]; simp [maxRetries] at hn; omega
    · simp [joinRetry, Event.isDelay]; simp [maxRetries] at hn; omega
    · intro e he hd
      simp only [List.mem_append] at he
      rcases he with he | he
      · have := mem_times e n _ he
        simp only [joinRetry, List.mem_cons, List.mem_singleton, List.not_mem_nil,
          or_false] at this
        rcases this with rfl | rfl | rfl
        · simp [Event.isDelay] at hd
        · simp [Event.isDelay] at hd
        · rfl
      · simp only [List.mem_cons, List.mem_singleton, List.not_mem_nil, or_false] at he
        rcases he with rfl | rfl | rfl | rfl <;> simp [Event.isDelay] at hd
  · refine ⟨times 10 (joinRetry env) ++
      [.serialPrintln "",
       .serialPrintln "Failed to connect to the network after multiple attempts."],
      ?_, ?_, ?_, ?_, ?_⟩
    · rw [h]; simp [connectWiFiGaveUp]
    · simp [joinRetry, Event.isWifiBegin]
    · simp [joinRetry, Event.isDot]
    · simp [joinRetry, Event.isDelay]
    · intro e he hd
      simp only [List.mem_append] at he
      rcases he with he | he
      · have := mem_times e 10 _ he
        simp only [joinRetry, List.mem_cons, List.mem_singleton, List.not_mem_nil,
          or_false] at this
        rcases this with rfl | rfl | rfl
        · simp [Event.isDelay] at hd
        · simp [Event.isDelay] at hd
        · rfl
      · simp only [List.mem_cons, List.mem_singleton, List.not_mem_nil, or_false] at he
        rcases he with rfl | rfl <;> simp [Event.isDelay] at hd

/-- C2: for every `n < 10`, when `WiFi.begin` fails on its next `n` calls and
returns `WL_CONNECTED` on the call after them, one invocation of `connectWiFi`
makes, after its banner, `n` times a join call followed by a retry dot and a
1000 ms delay, then one more join call, then prints the success message; so it
makes exactly `n + 1` join calls and prints exactly `n` retry dots, and it does
not print the failure message. -/
theorem C2_connectWiFi_joins_after_n_failures (env : Env) (w : World) (n : Nat)
    (hn : n < 10) (hfail : joinFails env w n) (hok : joinSucceedsAfter env w n) :
    connectWiFi env w =
        w.extend ([.serialPrint "Attempting to connect to the SSID: ",
            .serialPrint (ssid env), .serialPrint " "] ++
          times n [.wifiBegin (ssid env) (pass env), .serialPrint ".", .delay 1000] ++
          [.wifiBegin (ssid env) (pass env), .serialPrintln "",
           .serialPrintln "You're connected to the network", .serialPrintln ""]) ∧
      calls Event.isWifiBegin (connectWiFi env w).trace =
        calls Event.isWifiBegin w.trace + (n + 1) ∧
      calls Event.isDot
          (times n [.wifiBegin (ssid env) (pass env), .serialPrint ".", .delay 1000] ++
            [.wifiBegin (ssid env) (pass env), .serialPrintln "",
             .serialPrintln "You're connected to the network", .serialPrintln ""]) = n ∧
      Event.serialPrintln "Failed to connect to the network after multiple attempts." ∉
        (connectWiFi env w).trace.drop w.trace.length := by
  have h := connectWiFi_joined env w n hn hfail hok
  refine ⟨?_, ?_, ?_, ?_⟩
  · rw [h]; simp [connectWiFiJoined, connectWiFiBanner, joinRetry]
  · rw [h]; simp [connectWiFiJoined, connectWiFiBanner, joinRetry, Event.isWifiBegin]
  · simp [Event.isDot]
  · rw [h]
    simp only [World.extend_trace, List.drop_left]
    intro hmem
    simp only [connectWiFiJoined, connectWiFiBanner, List.mem_append, List.mem_cons,
      List.mem_singleton, List.not_mem_nil, or_false] at hmem
    rcases hmem with (hmem | hmem) | hmem
    · rcases hmem with hmem | hmem | hmem <;> cases hmem
    · have := mem_times _ n _ hmem
      simp [joinRetry] at this
    · rcases hmem with hmem | hmem | hmem | hmem
      · cases hmem
      · simp at hmem
      · simp at hmem
      · simp at hmem

/-- C2, witness: three failed joins, then a successful one: 4 join calls, 3 dots. -/
theorem C2_witness :
    joinFails (stubEnv 6 3 false 0 1) World.init 3 ∧
      joinSucceedsAfter (stubEnv 6 3 false 0 1) World.init 3 ∧
      calls Event.isWifiBegin (connectWiFi (stubEnv 6 3 false 0 1) World.init).trace = 4 :=
  ⟨by decide, by decide,
    (C2_connectWiFi_joins_after_n_failures (stubEnv 6 3 false 0 1) World.init 3 (by decide)
      (by decide) (by decide)).2.1⟩

/-- C3, as stated, fails: with 3 consecutive join failures followed by a
success, `connectWiFi` makes 4 join calls, not `min 3 10 = 3`. -/
theorem C3_counterexample :
    joinFails (stubEnv 6 3 false 0 1) World.init 3 ∧
      joinSucceedsAfter (stubEnv 6 3 false 0 1) World.init 3 ∧
      calls Event.isWifiBegin (connectWiFi (stubEnv 6 3 false 0 1) World.init).trace = 4 ∧
      calls Event.isWifiBegin (connectWiFi (stubEnv 6 3 false 0 1) World.init).trace ≠
        calls Event.isWifiBegin World.init.trace + min 3 10 := by
  have h := connectWiFi_joined (stubEnv 6 3 false 0 1) World.init 3 (by decide) (by decide)
    (by decide)
  refine ⟨by decide, by decide, ?_, ?_⟩
  · rw [h]; simp [connectWiFiJoined, connectWiFiBanner, joinRetry, Event.isWifiBegin, World.init]
  · rw [h]; simp [connectWiFiJoined, connectWiFiBanner, joinRetry, Event.isWifiBegin, World.init]

/-- C3, amended: when `WiFi.begin` fails on its next `n` calls and, if `n < 10`,
returns `WL_CONNECTED` on the call after them, one invocation of `connectWiFi`
makes exactly `min (n + 1) 10` join calls, of which the first `min n 10` are
failed ones, each followed by a retry dot and a 1000 ms delay. -/
theorem C3_connectWiFi_join_calls (env : Env) (w : World) (n : Nat)
    (hfail : joinFails env w n) (hok : n < 10 → joinSucceedsAfter env w n) :
    calls Event.isWifiBegin (connectWiFi env w).trace =
        calls Event.isWifiBegin w.trace + min (n + 1) 10 ∧
      ∃ rest, connectWiFi env w =
          w.extend (connectWiFiBanner env ++
            times (min n 10) [.wifiBegin (ssid env) (pass env), .serialPrint ".", .delay 1000] ++
            rest) ∧
        calls Event.isWifiBegin rest = min (n + 1) 10 - min n 10 ∧
        calls Event.isDot rest = 0 := by
  by_cases hn : n < 10
  · have h := connectWiFi_joined env w n hn hfail (hok hn)
    have h1 : min (n + 1) 10 = n + 1 := by omega
    have h2 : min n 10 = n := by omega
    refine ⟨?_, [.wifiBegin (ssid env) (pass env), .serialPrintln "",
      .serialPrintln "You're connected to the network", .serialPrintln ""], ?_, ?_, ?_⟩
    · rw [h, h1]
      simp [connectWiFiJoined, connectWiFiBanner, joinRetry, Event.isWifiBegin]
    · rw [h, h2]; simp [connectWiFiJoined, joinRetry]
    · rw [h1, h2]; simp [Event.isWifiBegin]
    · simp [Event.isDot]
  · have hf : joinFails env w maxRetries := fun i hi => hfail i (by simp [maxRetries] at hi; omega)
    have h := connectWiFi_gaveUp env w hf
    have h1 : min (n + 1) 10 = 10 := by omega
    have h2 : min n 10 = 10 := by omega
    refine ⟨?_, [.serialPrintln "",
      .serialPrintln "Failed to connect to the network after multiple attempts."], ?_, ?_, ?_⟩
    · rw [h, h1]
      simp [connectWiFiGaveUp, connectWiFiBanner, joinRetry, Event.isWifiBegin]
    · rw [h, h2]; simp [connectWiFiGaveUp, joinRetry]
    · rw [h1, h2]; simp [Event.isWifiBegin]
    · simp [Event.isDot]

/-- C3 amended, witness: 12 failed joins in a row give 10 join calls. -/
theorem C3_witness :
    joinFails (stubEnv 6 99 false 0 1) World.init 12 ∧
      calls Event.isWifiBegin (connectWiFi (stubEnv 6 99 false 0 1) World.init).trace =
        calls Event.isWifiBegin World.init.trace + min (12 + 1) 10 :=
  ⟨by decide,
    (C3_connectWiFi_join_calls (stubEnv 6 99 false 0 1) World.init 12 (by decide)
      (by decide)).1⟩

/-- C4: for every `N`, when `mqttClient.connect(broker, 8883)` fails on its
next `N` calls and succeeds on the call after them, one invocation of
`connectMQTT` returns as soon as its loop may run more than `N` iterations (and
is still running before that), having made, after its banner, `N` times a
connect call to port 8883 followed by a retry dot and a 3000 ms delay, then one
more connect call to port 8883, then printed its success message and made one
subscribe call, to `arduino/incoming`, as its last call. -/
theorem C4_connectMQTT_connects_after_N_failures (env : Env) (w : World) (N : Nat)
    (hfail : connectFails env w N) (hok : connectSucceedsAfter env w N) :
    (∀ fuel, N < fuel →
        connectMQTT env fuel w =
          some (w.extend ([.serialPrint "Attempting to MQTT broker: ",
              .serialPrint (broker env), .serialPrintln " "] ++
            times N [.mqttConnect (broker env) 8883, .serialPrint ".", .delay 3000] ++
            [.mqttConnect (broker env) 8883, .serialPrintln "",
             .serialPrintln "You're connected to the MQTT broker", .serialPrintln "",
             .mqttSubscribe "arduino/incoming"]))) ∧
      (∀ fuel, fuel ≤ N → connectMQTT env fuel w = none) ∧
      calls Event.isMqttConnect
          (times N [.mqttConnect (broker env) 8883, .serialPrint ".", .delay 3000] ++
            [.mqttConnect (broker env) 8883]) = N + 1 ∧
      calls Event.isDot
          (times N [.mqttConnect (broker env) 8883, .serialPrint ".", .delay 3000] ++
            [.mqttConnect (broker env) 8883, .serialPrintln "",
             .serialPrintln "You're connected to the MQTT broker", .serialPrintln "",
             .mqttSubscribe "arduino/incoming"]) = N ∧
      calls Event.isMqttSubscribe
          ([.serialPrint "Attempting to MQTT broker: ",
              .serialPrint (broker env), .serialPrintln " "] ++
            times N [.mqttConnect (broker env) 8883, .serialPrint ".", .delay 3000] ++
            [.mqttConnect (broker env) 8883, .serialPrintln "",
             .serialPrintln "You're connected to the MQTT broker", .serialPrintln ""]) = 0 := by
  refine ⟨?_, ?_, ?_, ?_, ?_⟩
  · intro fuel hlt
    rw [connectMQTT_done env N fuel w hlt hfail hok]
    simp [connectMQTTDone, connectRetry]
  · intro fuel hle
    exact connectMQTT_none env fuel w (fun i hi => hfail i (by omega))
  · simp [Event.isMqttConnect]
  · simp [Event.isDot]
  · simp [Event.isMqttSubscribe]

/-- C4, witness: two failed connects, then a successful one: 3 connect calls, 2 dots. -/
theorem C4_witness :
    connectFails (stubEnv 3 0 false 2 1) World.init 2 ∧
      connectSucceedsAfter (stubEnv 3 0 false 2 1) World.init 2 ∧
      connectMQTT (stubEnv 3 0 false 2 1) 3 World.init =
        some (World.init.extend
          [.serialPrint "Attempting to MQTT broker: ", .serialPrint "broker.example",
           .serialPrintln " ",
           .mqttConnect "broker.example" 8883, .serialPrint ".", .delay 3000,
           .mqttConnect "broker.example" 8883, .serialPrint ".", .delay 3000,
           .mqttConnect "broker.example" 8883, .serialPrintln "",
           .serialPrintln "You're connected to the MQTT broker", .serialPrintln "",
           .mqttSubscribe "arduino/incoming"]) :=
  ⟨by decide, by decide,
    (C4_connectMQTT_connects_after_N_failures (stubEnv 3 0 false 2 1) World.init 2 (by decide)
      (by decide)).1 3 (by decide)⟩

/-- The calls of `publishMessage`, with the two values drawn. -/
theorem publishMessage_eq (env : Env) (w : World) :
    publishMessage env w =
      w.extend [.serialPrintln "Publishing message", .mqttBeginMessage "arduino/outgoing",
        .mqttPrint "\x7b\"deviceModel\": \"MKR 1010\" ", .mqttPrint ",\"temperature\": ",
        .random 15 30,
        .mqttPrint (toString (env.random (calls Event.isRandom w.trace) 15 30)),
        .mqttPrint ",\"humidity\": ", .random 1 500,
        .mqttPrint (toString (env.random (calls Event.isRandom w.trace + 1) 1 500)),
        .mqttPrint ",\"vehicleId\": \"MKR1010-1", .mqttPrint "\"\x7d", .mqttEndMessage] := by
  simp [publishMessage, Serial.println, mqttClient.beginMessage, mqttClient.print, random,
    mqttClient.endMessage, Event.isRandom]

theorem payload_eq (T H : String) :
    "\x7b\"deviceModel\": \"MKR 1010\" " ++ (",\"temperature\": " ++ (T ++
        (",\"humidity\": " ++ (H ++ (",\"vehicleId\": \"MKR1010-1" ++ ("\"\x7d" ++ "")))))) =
      "\x7b\"deviceModel\": \"MKR 1010\" ,\"temperature\": " ++ T ++ ",\"humidity\": " ++ H ++
        ",\"vehicleId\": \"MKR1010-1\"\x7d" := by
  have h1 : "\x7b\"deviceModel\": \"MKR 1010\" " ++ ",\"temperature\": " =
      "\x7b\"deviceModel\": \"MKR 1010\" ,\"temperature\": " := by decide
  have h2 : ",\"vehicleId\": \"MKR1010-1" ++ ("\"\x7d" ++ "") =
      ",\"vehicleId\": \"MKR1010-1\"\x7d" := by decide
  rw [h2, ← h1]
  simp only [String.append_assoc]

/-- C5: for every pair of integers `t` and `h` returned by the two random
draws, one invocation of `publishMessage` makes one `beginMessage` call, to
`arduino/outgoing`, then calls that begin or end no message, then one
`endMessage` call; and the text printed in between is the payload of the
specification with the decimal renderings of `t` and `h`. -/
theorem C5_publishMessage_payload (env : Env) (w : World) (t h : Int)
    (ht : env.random (calls Event.isRandom w.trace) 15 30 = t)
    (hh : env.random (calls Event.isRandom w.trace + 1) 1 500 = h) :
    ∃ mid, publishMessage env w =
        w.extend ([.serialPrintln "Publishing message", .mqttBeginMessage "arduino/outgoing"] ++
          mid ++ [.mqttEndMessage]) ∧
      calls Event.isMqttBeginMessage mid = 0 ∧
      calls Event.isMqttEndMessage mid = 0 ∧
      printed mid =
        "\x7b\"deviceModel\": \"MKR 1010\" ,\"temperature\": " ++ toString t ++
          ",\"humidity\": " ++ toString h ++ ",\"vehicleId\": \"MKR1010-1\"\x7d" := by
  refine ⟨[.mqttPrint "\x7b\"deviceModel\": \"MKR 1010\" ", .mqttPrint ",\"temperature\": ",
        .random 15 30, .mqttPrint (toString t),
        .mqttPrint ",\"humidity\": ", .random 1 500, .mqttPrint (toString h),
        .mqttPrint ",\"vehicleId\": \"MKR1010-1", .mqttPrint "\"\x7d"], ?_, ?_, ?_, ?_⟩
  · rw [publishMessage_eq, ht, hh]; rfl
  · simp [Event.isMqttBeginMessage]
  · simp [Event.isMqttEndMessage]
  · simp only [printed]
    exact payload_eq _ _

/-- C5, witness: the draws 22 and 137 give the payload of the specification. -/
theorem C5_witness :
    ∃ mid, publishMessage (stubEnv 3 0 true 0 1) World.init =
        World.init.extend ([.serialPrintln "Publishing message",
          .mqttBeginMessage "arduino/outgoing"] ++ mid ++ [.mqttEndMessage]) ∧
      calls Event.isMqttBeginMessage mid = 0 ∧
      calls Event.isMqttEndMessage mid = 0 ∧
      printed mid =
        "\x7b\"deviceModel\": \"MKR 1010\" ,\"temperature\": 22,\"humidity\": 137,\"vehicleId\": \"MKR1010-1\"\x7d" :=
  C5_publishMessage_payload (stubEnv 3 0 true 0 1) World.init 22 137 (by decide) (by decide)

/-- C6: when `random(lo, hi)` returns a value in `[lo, hi)` for every non-empty
range, the temperature `t` and the humidity `h` printed into the message of
one invocation of `publishMessage` satisfy `15 ≤ t < 30` and `1 ≤ h < 500`. -/
theorem C6_publishMessage_ranges (env : Env) (w : World)
    (hrand : ∀ k lo hi, lo < hi → lo ≤ env.random k lo hi ∧ env.random k lo hi < hi) :
    ∃ t h : Int, publishMessage env w =
        w.extend [.serialPrintln "Publishing message", .mqttBeginMessage "arduino/outgoing",
          .mqttPrint "\x7b\"deviceModel\": \"MKR 1010\" ", .mqttPrint ",\"temperature\": ",
          .random 15 30, .mqttPrint (toString t),
          .mqttPrint ",\"humidity\": ", .random 1 500, .mqttPrint (toString h),
          .mqttPrint ",\"vehicleId\": \"MKR1010-1", .mqttPrint "\"\x7d", .mqttEndMessage] ∧
      15 ≤ t ∧ t < 30 ∧ 1 ≤ h ∧ h < 500 := by
  have h1 := hrand (calls Event.isRandom w.trace) 15 30 (by decide)
  have h2 := hrand (calls Event.isRandom w.trace + 1) 1 500 (by decide)
  exact ⟨_, _, publishMessage_eq env w, h1.1, h1.2, h2.1, h2.2⟩

/-- The `random` of `stubEnv` returns a value in `[lo, hi)` for every non-empty range. -/
theorem stubEnv_random_range (a b : Nat) (c : Bool) (d e : Nat) (k : Nat) (lo hi : Int)
    (h : lo < hi) :
    lo ≤ (stubEnv a b c d e).random k lo hi ∧ (stubEnv a b c d e).random k lo hi < hi := by
  have hpos : 0 < hi - lo := by omega
  have h1 := Int.emod_nonneg (if k % 2 = 0 then (7 : Int) else 136) (ne_of_gt hpos)
  have h2 := Int.emod_lt_of_pos (if k % 2 = 0 then (7 : Int) else 136) hpos
  simp only [stubEnv, h, if_true]
  constructor <;> omega

/-- C6, witness: the library behaviour `stubEnv` has a `random` within range. -/
theorem C6_witness :
    ∃ t h : Int, publishMessage (stubEnv 3 0 true 0 1) World.init =
        World.init.extend [.serialPrintln "Publishing message",
          .mqttBeginMessage "arduino/outgoing",
          .mqttPrint "\x7b\"deviceModel\": \"MKR 1010\" ", .mqttPrint ",\"temperature\": ",
          .random 15 30, .mqttPrint (toString t),
          .mqttPrint ",\"humidity\": ", .random 1 500, .mqttPrint (toString h),
          .mqttPrint ",\"vehicleId\": \"MKR1010-1", .mqttPrint "\"\x7d", .mqttEndMessage] ∧
      15 ≤ t ∧ t < 30 ∧ 1 ≤ h ∧ h < 500 :=
  C6_publishMessage_ranges (stubEnv 3 0 true 0 1) World.init
    (stubEnv_random_range 3 0 true 0 1)

theorem toChar_byte (b : Fin 256) : toChar (b.val : Int) = b.val := by
  have h := b.isLt
  unfold toChar
  omega

/-- The loop of `onMessageReceived` reads and echoes every unread byte, in order. -/
theorem drainLoop_eq : ∀ (bs : List (Fin 256)) (w : World), w.rx = bs →
    drainLoop w = { w.extend (drained bs ++ [.mqttAvailable]) with rx := [] } := by
  intro bs
  induction bs with
  | nil =>
    intro w hw
    rw [drainLoop]
    simp [mqttClient.available, hw, drained, World.extend]
  | cons b rest ih =>
    intro w hw
    rw [drainLoop]
    have hne : ((rest.length : Int) + 1 = 0) = False := by
      apply eq_false
      omega
    simp only [mqttClient.available, hw, List.length_cons, Nat.cast_add, Nat.cast_one, ne_eq,
      hne, not_false_eq_true, if_true, mqttClient.read, World.emit_eq, World.extend_rx,
      Serial.printChar, toChar_byte]
    rw [ih _ rfl]
    simp [World.extend, drained]

/-- C8: for every `L ≥ 0`, when `onMessageReceived` is invoked with declared length `L` on a
message that has exactly `L` unread bytes, it prints the topic and `L`, then for
each of those bytes, in order, tests `available()`, reads one byte and echoes it
as a character, then tests `available()` once more and prints two line ends; it
makes exactly `L` read calls, echoes exactly the bytes of the message, and
leaves no byte unread. -/
theorem C8_onMessageReceived_echoes (w : World) (L : Nat) (hlen : w.rx.length = L) :
    onMessageReceived (L : Int) w =
        { w.extend ([.serialPrint "Received a message with topic '", .mqttMessageTopic,
            .serialPrint w.rxTopic, .serialPrint "', length ",
            .serialPrint (toString (L : Int)),
            .serialPrintln " bytes:"] ++ drained w.rx ++
            [.mqttAvailable, .serialPrintln "", .serialPrintln ""]) with rx := [] } ∧
      calls Event.isMqttRead (onMessageReceived (L : Int) w).trace =
        calls Event.isMqttRead w.trace + L ∧
      echoed (drained w.rx) = w.rx.map (fun b => b.val) := by
  have hcount : calls Event.isMqttRead (drained w.rx) = L := by
    subst hlen
    generalize w.rx = bs
    induction bs with
    | nil => simp [drained]
    | cons b rest ih => simp [drained, Event.isMqttRead, ih]
  have heq : onMessageReceived (L : Int) w =
      { w.extend ([.serialPrint "Received a message with topic '", .mqttMessageTopic,
          .serialPrint w.rxTopic, .serialPrint "', length ",
          .serialPrint (toString (L : Int)),
          .serialPrintln " bytes:"] ++ drained w.rx ++
          [.mqttAvailable, .serialPrintln "", .serialPrintln ""]) with rx := [] } := by
    unfold onMessageReceived
    simp only [Serial.print, Serial.println, mqttClient.messageTopic, World.emit_eq,
      World.extend_extend]
    rw [drainLoop_eq w.rx _ (by simp)]
    simp [World.extend]
  refine ⟨heq, ?_, ?_⟩
  · rw [heq]
    simp [World.extend, hcount, Event.isMqttRead]
  · generalize w.rx = bs
    induction bs with
    | nil => simp [drained, echoed]
    | cons b rest ih => simp [drained, echoed, ih]

/-- C8, witness: a message of declared length 3 with the 3 bytes `A`, `B`, `0xFF`. -/
theorem C8_witness :
    onMessageReceived 3 { World.init with rxTopic := "arduino/incoming", rx := [65, 66, 255] } =
        { World.init with
          rxTopic := "arduino/incoming"
          rx := []
          trace := [.serialPrint "Received a message with topic '", .mqttMessageTopic,
            .serialPrint "arduino/incoming", .serialPrint "', length ", .serialPrint "3",
            .serialPrintln " bytes:",
            .mqttAvailable, .mqttRead, .serialPrintChar 65,
            .mqttAvailable, .mqttRead, .serialPrintChar 66,
            .mqttAvailable, .mqttRead, .serialPrintChar 255,
            .mqttAvailable, .serialPrintln "", .serialPrintln ""] } :=
  (C8_onMessageReceived_echoes
    { World.init with rxTopic := "arduino/incoming", rx := [65, 66, 255] } 3 (by decide)).1

/-- The subtraction of the sketch is the elapsed time of the specification. -/
theorem sub32_eq_elapsed32 (a b : Nat) : sub32 a b = elapsed32 a b := by
  unfold sub32 elapsed32
  have hM : (2 : Nat) ^ 32 = 4294967296 := by norm_num
  rw [hM]
  omega

/-- The elapsed time is a 32-bit value that, added to the older counter value,
gives the newer one modulo `2 ^ 32`. -/
theorem elapsed32_spec (now last : Nat) :
    elapsed32 now last < 2 ^ 32 ∧ (elapsed32 now last + last) % 2 ^ 32 = now % 2 ^ 32 := by
  unfold elapsed32
  have hM : (2 : Nat) ^ 32 = 4294967296 := by norm_num
  rw [hM]
  omega

/-- Across any number of wraparounds of the counter, the elapsed time between
two readings of a clock less than `2 ^ 32` ms apart is the time that passed. -/
theorem elapsed32_clock (a b : Nat) (h : a ≤ b) (hlt : b - a < 2 ^ 32) :
    elapsed32 (b % 2 ^ 32) (a % 2 ^ 32) = b - a := by
  unfold elapsed32
  have hM : (2 : Nat) ^ 32 = 4294967296 := by norm_num
  rw [hM] at hlt ⊢
  omega

/-- The elapsed time between two readings of a clock never exceeds the time
that passed between them. -/
theorem elapsed32_le (a b : Nat) (h : a ≤ b) : elapsed32 (b % 2 ^ 32) (a % 2 ^ 32) ≤ b - a := by
  unfold elapsed32
  have hM : (2 : Nat) ^ 32 = 4294967296 := by norm_num
  rw [hM]
  omega

/-- The calls of `onMessageReceived`, whatever the declared length. -/
theorem onMessageReceived_eq (w : World) (L : Int) :
    onMessageReceived L w =
      { w.extend ([.serialPrint "Received a message with topic '", .mqttMessageTopic,
          .serialPrint w.rxTopic, .serialPrint "', length ", .serialPrint (toString L),
          .serialPrintln " bytes:"] ++ drained w.rx ++
          [.mqttAvailable, .serialPrintln "", .serialPrintln ""]) with rx := [] } := by
  unfold onMessageReceived
  simp only [Serial.print, Serial.println, mqttClient.messageTopic, World.emit_eq,
    World.extend_extend]
  rw [drainLoop_eq w.rx _ (by simp)]
  simp [World.extend]

@[simp] theorem World.received_trace (msgs : List (String × List (Fin 256))) :
    ∀ w : World, (w.received msgs).trace = w.trace := by
  induction msgs with
  | nil => intro w; rfl
  | cons m rest ih => intro w; simp [World.received, ih]

@[simp] theorem World.received_lastMillis (msgs : List (String × List (Fin 256))) :
    ∀ w : World, (w.received msgs).lastMillis = w.lastMillis := by
  induction msgs with
  | nil => intro w; rfl
  | cons m rest ih => intro w; simp [World.received, ih]

theorem World.received_extend (msgs : List (String × List (Fin 256))) :
    ∀ (w : World) (a : List Event), (w.extend a).received msgs = (w.received msgs).extend a := by
  induction msgs with
  | nil => intro w a; rfl
  | cons m rest ih =>
    intro w a
    simp only [World.received]
    exact ih { w with rxTopic := m.1, rx := [] } a

/-- Delivering the inbound messages `msgs` to the handler, one after the other. -/
theorem deliver_eq (msgs : List (String × List (Fin 256))) :
    ∀ v : World,
      msgs.foldl (fun v msg =>
          onMessageReceived (msg.2.length : Int) { v with rxTopic := msg.1, rx := msg.2 }) v =
        (v.received msgs).extend (inboundCalls msgs) := by
  induction msgs with
  | nil => intro v; simp [World.received, inboundCalls, World.extend_nil]
  | cons m rest ih =>
    intro v
    rw [List.foldl_cons, ih]
    have h : onMessageReceived (m.2.length : Int) { v with rxTopic := m.1, rx := m.2 } =
        ({ v with rxTopic := m.1, rx := [] } : World).extend (handlerCalls m) := by
      rw [onMessageReceived_eq]
      simp [World.extend, handlerCalls]
    simp only [h, World.received_extend, World.extend_extend]
    simp [World.received, inboundCalls]

/-- The poll, call by call: the poll itself, then the handler calls for the
inbound messages it receives. -/
theorem poll_eq (env : Env) (w : World) :
    mqttClient.poll env w =
      (w.received (env.inbound (calls Event.isMqttPoll w.trace))).extend
        ([.mqttPoll] ++ inboundCalls (env.inbound (calls Event.isMqttPoll w.trace))) := by
  unfold mqttClient.poll
  rw [deliver_eq, World.emit_eq, World.received_extend, World.extend_extend]

theorem calls_drained_eq_zero (p : Event → Bool) (h1 : p .mqttAvailable = false)
    (h2 : p .mqttRead = false) (h3 : ∀ c, p (.serialPrintChar c) = false) :
    ∀ bs : List (Fin 256), calls p (drained bs) = 0 := by
  intro bs
  induction bs with
  | nil => rfl
  | cons b rest ih => simp [drained, ih, h1, h2, h3]

/-- The handler makes no call of a kind that none of its calls is. -/
theorem calls_inboundCalls_eq_zero (p : Event → Bool) (h1 : p .mqttAvailable = false)
    (h2 : p .mqttRead = false) (h3 : ∀ c, p (.serialPrintChar c) = false)
    (h4 : ∀ s, p (.serialPrint s) = false) (h5 : ∀ s, p (.serialPrintln s) = false)
    (h6 : p .mqttMessageTopic = false) :
    ∀ msgs : List (String × List (Fin 256)), calls p (inboundCalls msgs) = 0 := by
  intro msgs
  induction msgs with
  | nil => rfl
  | cons m rest ih =>
    simp [inboundCalls, handlerCalls, ih, calls_drained_eq_zero p h1 h2 h3, h1, h4, h5, h6]

/-- The tick is its three statements in sequence. -/
theorem loop_eq (env : Env) (fuel : Nat) (w : World) :
    loop env fuel w = (loopSession env fuel (loopNetwork env w)).map (loopPublish env) := by
  unfold loop loopSession loopNetwork loopPublish
  simp only []
  split <;> rename_i h <;> simp only [h, Option.map]
  all_goals split <;> rfl

/-- The network check of a tick, call by call. -/
theorem loopNetwork_eq (env : Env) (w : World) :
    ∃ net, NetPart env w net ∧ loopNetwork env w = w.extend ([.wifiStatus] ++ net) := by
  by_cases hs : tickStatus env w = env.WL_CONNECTED
  · refine ⟨[], Or.inl ⟨hs, rfl⟩, ?_⟩
    have hs2 : env.wifiStatus (calls Event.isWifiStatus w.trace) = env.WL_CONNECTED := hs
    simp [loopNetwork, WiFi.status, hs2]
  · have hs2 : env.wifiStatus (calls Event.isWifiStatus w.trace) ≠ env.WL_CONNECTED := hs
    have hstep : loopNetwork env w =
        connectWiFi env (w.extend [.wifiStatus, .wifiScanNetworks, scanReport env w]) := by
      simp [loopNetwork, WiFi.status, hs2, WiFi.scanNetworks, Serial.println, scanReport,
        Event.isWifiScanNetworks]
    have hc : calls Event.isWifiBegin
        (w.extend [.wifiStatus, .wifiScanNetworks, scanReport env w]).trace =
          calls Event.isWifiBegin w.trace := by
      simp [scanReport, Event.isWifiBegin]
    rcases connectWiFi_cases env (w.extend [.wifiStatus, .wifiScanNetworks, scanReport env w])
      with ⟨n, hn, hf, hok, h⟩ | ⟨hf, h⟩
    · refine ⟨_, Or.inr (Or.inl ⟨hs, n, hn, (joinFails_congr env _ _ n hc).1 hf,
        (joinSucceedsAfter_congr env _ _ n hc).1 hok, rfl⟩), ?_⟩
      rw [hstep, h]; simp
    · refine ⟨_, Or.inr (Or.inr ⟨hs, (joinFails_congr env _ _ _ hc).1 hf, rfl⟩), ?_⟩
      rw [hstep, h]; simp

/-- The network part of a tick makes no call of a kind that none of its calls is. -/
theorem netPart_calls_eq_zero (env : Env) (w : World) (net : List Event) (h : NetPart env w net)
    (p : Event → Bool) (h1 : ∀ s, p (.serialPrint s) = false)
    (h2 : ∀ s, p (.serialPrintln s) = false) (h3 : ∀ a b, p (.wifiBegin a b) = false)
    (h4 : ∀ ms, p (.delay ms) = false) (h5 : p .wifiScanNetworks = false) :
    calls p net = 0 := by
  rcases h with ⟨_, rfl⟩ | ⟨_, n, _, _, _, rfl⟩ | ⟨_, _, rfl⟩
  · rfl
  · simp [connectWiFiJoined, connectWiFiBanner, joinRetry, scanReport, h1, h2, h3, h4, h5]
  · simp [connectWiFiGaveUp, connectWiFiBanner, joinRetry, scanReport, h1, h2, h3, h4, h5]

/-- The session part of a tick makes no call of a kind that none of its calls is. -/
theorem mqttPart_calls_eq_zero (env : Env) (fuel : Nat) (w : World) (mq : List Event)
    (h : MqttPart env fuel w mq)
    (p : Event → Bool) (h1 : ∀ s, p (.serialPrint s) = false)
    (h2 : ∀ s, p (.serialPrintln s) = false) (h3 : ∀ a b, p (.mqttConnect a b) = false)
    (h4 : ∀ ms, p (.delay ms) = false) (h5 : ∀ t, p (.mqttSubscribe t) = false) :
    calls p mq = 0 := by
  rcases h with ⟨_, rfl⟩ | ⟨_, n, _, _, _, rfl⟩
  · rfl
  · simp [connectMQTTDone, connectRetry, h1, h2, h3, h4, h5]

/-- The session check of a tick, call by call, when it completes. -/
theorem loopSession_some (env : Env) (fuel : Nat) (w : World) (net : List Event)
    (hnet : NetPart env w net) (w1 : World)
    (h : loopSession env fuel (w.extend ([.wifiStatus] ++ net)) = some w1) :
    ∃ mq, MqttPart env fuel w mq ∧
      w1 = w.extend ([.wifiStatus] ++ net ++ [.mqttConnected] ++ mq) := by
  have hc1 : calls Event.isMqttConnected (w.extend ([.wifiStatus] ++ net)).trace =
      calls Event.isMqttConnected w.trace := by
    have := netPart_calls_eq_zero env w net hnet Event.isMqttConnected (fun _ => rfl)
      (fun _ => rfl) (fun _ _ => rfl) (fun _ => rfl) rfl
    simp [this, Event.isMqttConnected]
  have hc2 : calls Event.isMqttConnect
      (w.extend ([.wifiStatus] ++ net ++ [.mqttConnected])).trace =
      calls Event.isMqttConnect w.trace := by
    have := netPart_calls_eq_zero env w net hnet Event.isMqttConnect (fun _ => rfl)
      (fun _ => rfl) (fun _ _ => rfl) (fun _ => rfl) rfl
    simp [this, Event.isMqttConnect]
  unfold loopSession at h
  simp only [mqttClient.connected, hc1, World.emit_eq, World.extend_extend] at h
  cases hcon : tickConnected env w with
  | true =>
    have hcon2 : env.mqttConnected (calls Event.isMqttConnected w.trace) = true := hcon
    simp only [hcon2, Bool.not_true, Bool.false_eq_true, if_false] at h
    refine ⟨[], Or.inl ⟨hcon, rfl⟩, ?_⟩
    simpa using (Option.some.inj h).symm
  | false =>
    have hcon2 : env.mqttConnected (calls Event.isMqttConnected w.trace) = false := hcon
    simp only [hcon2, Bool.not_false, if_true] at h
    obtain ⟨n, hn, hf, hok, hw1⟩ := connectMQTT_some env fuel _ w1 h
    refine ⟨connectMQTTDone env n, Or.inr ⟨hcon, n, hn,
      (connectFails_congr env _ _ n hc2).1 hf, (connectSucceedsAfter_congr env _ _ n hc2).1 hok,
      rfl⟩, ?_⟩
    rw [hw1]; simp

/-- The calls after the poll, counted by kind. -/
theorem calls_tickPost (env : Env) (w : World) (p : Event → Bool) (hm : p .millis = false) :
    calls p (tickPost env w) =
      if 1000 < tickElapsed env w then calls p (publishCalls env (calls Event.isRandom w.trace))
      else 0 := by
  unfold tickPost
  split <;> simp [hm]

@[simp] theorem tickEnd_trace (env : Env) (w : World) (pre : List Event) :
    (tickEnd env w pre).trace =
      w.trace ++ (pre ++ [.mqttPoll] ++ inboundCalls (tickInbound env w) ++ tickPost env w) := by
  simp [tickEnd]

@[simp] theorem tickEnd_lastMillis (env : Env) (w : World) (pre : List Event) :
    (tickEnd env w pre).lastMillis =
      if 1000 < tickElapsed env w then env.clock (calls Event.isMillis w.trace + 1) % 2 ^ 32
      else w.lastMillis := by
  simp [tickEnd]

/-- The third statement of a tick, call by call, from the state reached by the
calls `pre`, none of which is a poll, a `millis()` call or a `random` call. -/
theorem loopPublish_extend (env : Env) (w : World) (pre : List Event)
    (hp : calls Event.isMqttPoll pre = 0) (hm : calls Event.isMillis pre = 0)
    (hr : calls Event.isRandom pre = 0) :
    loopPublish env (w.extend pre) = tickEnd env w pre := by
  have hi1 := calls_inboundCalls_eq_zero Event.isMillis rfl rfl (fun _ => rfl) (fun _ => rfl)
    (fun _ => rfl) rfl (env.inbound (calls Event.isMqttPoll w.trace))
  have hi2 := calls_inboundCalls_eq_zero Event.isRandom rfl rfl (fun _ => rfl) (fun _ => rfl)
    (fun _ => rfl) rfl (env.inbound (calls Event.isMqttPoll w.trace))
  unfold loopPublish
  simp only [poll_eq, World.extend_trace, calls_append, hp, Nat.add_zero]
  simp only [millis, World.emit_eq, World.extend_extend, World.extend_trace,
    World.extend_lastMillis, World.received_trace, World.received_lastMillis,
    World.received_extend, calls_append, calls_cons, calls_nil, Event.isMillis, hm, hi1,
    sub32_eq_elapsed32]
  simp only [Bool.false_eq_true, if_false, if_true, Nat.add_zero, Nat.zero_add, gt_iff_lt]
  unfold tickEnd tickPost
  simp only [tickInbound]
  by_cases hd : 1000 < tickElapsed env w
  · have hd2 : 1000 < elapsed32 (env.clock (calls Event.isMillis w.trace) % 2 ^ 32)
        w.lastMillis := hd
    rw [if_pos hd2, if_pos hd, if_pos hd, publishMessage_eq]
    simp [World.extend, publishCalls, Event.isRandom, hr, hi2]
  · have hd2 : ¬ 1000 < elapsed32 (env.clock (calls Event.isMillis w.trace) % 2 ^ 32)
        w.lastMillis := hd
    rw [if_neg hd2, if_neg hd, if_neg hd]
    simp [World.extend]

/-- A tick that completes, call by call, for a given network part. -/
theorem loop_some_of_net (env : Env) (fuel : Nat) (w w1 : World) (net : List Event)
    (hnet : NetPart env w net) (hN : loopNetwork env w = w.extend ([.wifiStatus] ++ net))
    (h : loop env fuel w = some w1) :
    ∃ mq, MqttPart env fuel w mq ∧
      w1 = tickEnd env w ([.wifiStatus] ++ net ++ [.mqttConnected] ++ mq) := by
  rw [loop_eq, hN] at h
  cases hS : loopSession env fuel (w.extend ([.wifiStatus] ++ net)) with
  | none => rw [hS] at h; cases h
  | some w2 =>
    rw [hS] at h
    obtain ⟨mq, hmq, hw2⟩ := loopSession_some env fuel w net hnet w2 hS
    refine ⟨mq, hmq, ?_⟩
    have hnz := netPart_calls_eq_zero env w net hnet
    have hmz := mqttPart_calls_eq_zero env fuel w mq hmq
    have hw1 : w1 = loopPublish env w2 := (Option.some.inj h).symm
    rw [hw1, hw2]
    apply loopPublish_extend
    · simp [hnz Event.isMqttPoll (fun _ => rfl) (fun _ => rfl) (fun _ _ => rfl) (fun _ => rfl) rfl,
        hmz Event.isMqttPoll (fun _ => rfl) (fun _ => rfl) (fun _ _ => rfl) (fun _ => rfl)
          (fun _ => rfl), Event.isMqttPoll]
    · simp [hnz Event.isMillis (fun _ => rfl) (fun _ => rfl) (fun _ _ => rfl) (fun _ => rfl) rfl,
        hmz Event.isMillis (fun _ => rfl) (fun _ => rfl) (fun _ _ => rfl) (fun _ => rfl)
          (fun _ => rfl), Event.isMillis]
    · simp [hnz Event.isRandom (fun _ => rfl) (fun _ => rfl) (fun _ _ => rfl) (fun _ => rfl) rfl,
        hmz Event.isRandom (fun _ => rfl) (fun _ => rfl) (fun _ _ => rfl) (fun _ => rfl)
          (fun _ => rfl), Event.isRandom]

/-- A tick that completes, call by call. -/
theorem loop_some (env : Env) (fuel : Nat) (w w1 : World) (h : loop env fuel w = some w1) :
    ∃ net mq, NetPart env w net ∧ MqttPart env fuel w mq ∧
      w1 = tickEnd env w ([.wifiStatus] ++ net ++ [.mqttConnected] ++ mq) := by
  obtain ⟨net, hnet, hN⟩ := loopNetwork_eq env w
  obtain ⟨mq, hmq, hw1⟩ := loop_some_of_net env fuel w w1 net hnet hN h
  exact ⟨net, mq, hnet, hmq, hw1⟩

/-- A tick that does not complete is one whose session check found the session
down and whose `connectMQTT` is still running. -/
theorem loop_none_of_net (env : Env) (fuel : Nat) (w : World) (net : List Event)
    (hnet : NetPart env w net) (hN : loopNetwork env w = w.extend ([.wifiStatus] ++ net))
    (h : loop env fuel w = none) :
    tickConnected env w = false ∧
      connectMQTT env fuel (w.extend ([.wifiStatus] ++ net ++ [.mqttConnected])) = none := by
  have hz := netPart_calls_eq_zero env w net hnet Event.isMqttConnected (fun _ => rfl)
    (fun _ => rfl) (fun _ _ => rfl) (fun _ => rfl) rfl
  rw [loop_eq, hN] at h
  cases hS : loopSession env fuel (w.extend ([.wifiStatus] ++ net)) with
  | some w2 => rw [hS] at h; cases h
  | none =>
    unfold loopSession at hS
    simp only [mqttClient.connected, World.emit_eq, World.extend_extend, World.extend_trace,
      calls_append, calls_cons, calls_nil, hz, Event.isMqttConnected] at hS
    simp only [Bool.false_eq_true, if_false, Nat.add_zero] at hS
    cases hcon : tickConnected env w with
    | true =>
      have hcon2 : env.mqttConnected (calls Event.isMqttConnected w.trace) = true := hcon
      simp [hcon2] at hS
    | false =>
      have hcon2 : env.mqttConnected (calls Event.isMqttConnected w.trace) = false := hcon
      simp only [hcon2, Bool.not_false, if_true] at hS
      exact ⟨rfl, hS⟩

/-- The network check of a tick makes the calls that `NetPart` lists. -/
theorem loopNetwork_of (env : Env) (w : World) (net : List Event) (h : NetPart env w net) :
    loopNetwork env w = w.extend ([.wifiStatus] ++ net) := by
  have hc : calls Event.isWifiBegin
      (w.extend [.wifiStatus, .wifiScanNetworks, scanReport env w]).trace =
        calls Event.isWifiBegin w.trace := by
    simp [scanReport, Event.isWifiBegin]
  have hstep : tickStatus env w ≠ env.WL_CONNECTED → loopNetwork env w =
      connectWiFi env (w.extend [.wifiStatus, .wifiScanNetworks, scanReport env w]) := by
    intro hs
    have hs2 : env.wifiStatus (calls Event.isWifiStatus w.trace) ≠ env.WL_CONNECTED := hs
    simp [loopNetwork, WiFi.status, hs2, WiFi.scanNetworks, Serial.println, scanReport,
      Event.isWifiScanNetworks]
  rcases h with ⟨hs, rfl⟩ | ⟨hs, n, hn, hf, hok, rfl⟩ | ⟨hs, hf, rfl⟩
  · have hs2 : env.wifiStatus (calls Event.isWifiStatus w.trace) = env.WL_CONNECTED := hs
    simp [loopNetwork, WiFi.status, hs2]
  · rw [hstep hs, connectWiFi_joined env _ n hn ((joinFails_congr env _ _ n hc).2 hf)
      ((joinSucceedsAfter_congr env _ _ n hc).2 hok)]
    simp
  · rw [hstep hs, connectWiFi_gaveUp env _ ((joinFails_congr env _ _ _ hc).2 hf)]
    simp

/-- The session check of a tick makes the calls that `MqttPart` lists. -/
theorem loopSession_of (env : Env) (fuel : Nat) (w : World) (net mq : List Event)
    (hnet : NetPart env w net) (hmq : MqttPart env fuel w mq) :
    loopSession env fuel (w.extend ([.wifiStatus] ++ net)) =
      some (w.extend ([.wifiStatus] ++ net ++ [.mqttConnected] ++ mq)) := by
  have hc1 : calls Event.isMqttConnected (w.extend ([.wifiStatus] ++ net)).trace =
      calls Event.isMqttConnected w.trace := by
    have := netPart_calls_eq_zero env w net hnet Event.isMqttConnected (fun _ => rfl)
      (fun _ => rfl) (fun _ _ => rfl) (fun _ => rfl) rfl
    simp [this, Event.isMqttConnected]
  have hc2 : calls Event.isMqttConnect
      (w.extend ([.wifiStatus] ++ net ++ [.mqttConnected])).trace =
      calls Event.isMqttConnect w.trace := by
    have := netPart_calls_eq_zero env w net hnet Event.isMqttConnect (fun _ => rfl)
      (fun _ => rfl) (fun _ _ => rfl) (fun _ => rfl) rfl
    simp [this, Event.isMqttConnect]
  unfold loopSession
  simp only [mqttClient.connected, hc1, World.emit_eq, World.extend_extend]
  rcases hmq with ⟨hcon, rfl⟩ | ⟨hcon, n, hn, hf, hok, rfl⟩
  · have hcon2 : env.mqttConnected (calls Event.isMqttConnected w.trace) = true := hcon
    simp [hcon2]
  · have hcon2 : env.mqttConnected (calls Event.isMqttConnected w.trace) = false := hcon
    simp only [hcon2, Bool.not_false, if_true]
    rw [connectMQTT_done env n fuel _ hn ((connectFails_congr env _ _ n hc2).2 hf)
      ((connectSucceedsAfter_congr env _ _ n hc2).2 hok)]
    simp

/-- The tick whose network part and session part make the calls `net` and `mq`. -/
theorem loop_of_parts (env : Env) (fuel : Nat) (w : World) (net mq : List Event)
    (hnet : NetPart env w net) (hmq : MqttPart env fuel w mq) :
    loop env fuel w = some (tickEnd env w ([.wifiStatus] ++ net ++ [.mqttConnected] ++ mq)) := by
  have hnz := netPart_calls_eq_zero env w net hnet
  have hmz := mqttPart_calls_eq_zero env fuel w mq hmq
  rw [loop_eq, loopNetwork_of env w net hnet, loopSession_of env fuel w net mq hnet hmq,
    Option.map]
  congr 1
  apply loopPublish_extend
  · simp [hnz Event.isMqttPoll (fun _ => rfl) (fun _ => rfl) (fun _ _ => rfl) (fun _ => rfl) rfl,
      hmz Event.isMqttPoll (fun _ => rfl) (fun _ => rfl) (fun _ _ => rfl) (fun _ => rfl)
        (fun _ => rfl), Event.isMqttPoll]
  · simp [hnz Event.isMillis (fun _ => rfl) (fun _ => rfl) (fun _ _ => rfl) (fun _ => rfl) rfl,
      hmz Event.isMillis (fun _ => rfl) (fun _ => rfl) (fun _ _ => rfl) (fun _ => rfl)
        (fun _ => rfl), Event.isMillis]
  · simp [hnz Event.isRandom (fun _ => rfl) (fun _ => rfl) (fun _ _ => rfl) (fun _ => rfl) rfl,
      hmz Event.isRandom (fun _ => rfl) (fun _ => rfl) (fun _ _ => rfl) (fun _ => rfl)
        (fun _ => rfl), Event.isRandom]

/-- A tick whose session is down and whose next `fuel` connect calls all fail is
still running after `fuel` iterations of the loop of `connectMQTT`. -/
theorem loop_none (env : Env) (fuel : Nat) (w : World) (hcon : tickConnected env w = false)
    (hfail : connectFails env w fuel) : loop env fuel w = none := by
  cases h : loop env fuel w with
  | none => rfl
  | some w1 =>
    obtain ⟨net, mq, _, hmq, _⟩ := loop_some env fuel w w1 h
    rcases hmq with ⟨hc, _⟩ | ⟨_, n, hn, _, hok, _⟩
    · rw [hcon] at hc; cases hc
    · have := hfail n hn
      rw [connectSucceedsAfter, this] at hok
      cases hok

/-- C9, as stated, fails: in a tick where `WiFi.status()` is not `WL_CONNECTED`
and all ten join calls of `connectWiFi` fail, so that `connectWiFi` gives up,
the session check still calls `mqttClient.connect`. -/
theorem C9_counterexample :
    tickStatus (stubEnv 6 99 false 0 1) World.init ≠ (stubEnv 6 99 false 0 1).WL_CONNECTED ∧
      joinFails (stubEnv 6 99 false 0 1) World.init 10 ∧
      loop (stubEnv 6 99 false 0 1) 1 World.init =
        some (World.init.extend
          ([.wifiStatus, .wifiScanNetworks, .serialPrintln "Discovered 2 Networks",
            .serialPrint "Attempting to connect to the SSID: ", .serialPrint "home",
            .serialPrint " "] ++
            times 10 [.wifiBegin "home" "secret", .serialPrint ".", .delay 1000] ++
           [.serialPrintln "",
            .serialPrintln "Failed to connect to the network after multiple attempts.",
            .mqttConnected,
            .serialPrint "Attempting to MQTT broker: ", .serialPrint "broker.example",
            .serialPrintln " ", .mqttConnect "broker.example" 8883, .serialPrintln "",
            .serialPrintln "You're connected to the MQTT broker", .serialPrintln "",
            .mqttSubscribe "arduino/incoming", .mqttPoll, .millis])) := by
  refine ⟨by decide, by decide, ?_⟩
  rw [loop_of_parts (stubEnv 6 99 false 0 1) 1 World.init
    ([.wifiScanNetworks, scanReport (stubEnv 6 99 false 0 1) World.init] ++
      connectWiFiGaveUp (stubEnv 6 99 false 0 1))
    (connectMQTTDone (stubEnv 6 99 false 0 1) 0)
    (Or.inr (Or.inr ⟨by decide, by decide, rfl⟩))
    (Or.inr ⟨by decide, 0, by decide, by decide, by decide, rfl⟩)]
  rfl

/-- C9, amended: in every tick of `loop`, the network part ends, without any
secure connect call, in one of three ways: `WiFi.status()` returned
`WL_CONNECTED`, or `connectWiFi` joined (a join call returned `WL_CONNECTED`),
or `connectWiFi` gave up after ten failed join calls.  Whichever it was, the
tick then calls `mqttClient.connected()`; a tick that completes makes a secure
connect call after that exactly when `mqttClient.connected()` returned false,
and a tick that does not complete is one where it returned false and the
`connectMQTT` invoked after it is still running. -/
theorem C9_loop_connect_after_network_check (env : Env) (fuel : Nat) (w : World) :
    ∃ net,
      ((tickStatus env w = env.WL_CONNECTED ∧ net = []) ∨
        (tickStatus env w ≠ env.WL_CONNECTED ∧
          ∃ n, n < 10 ∧ joinFails env w n ∧ joinSucceedsAfter env w n ∧
            net = [.wifiScanNetworks, scanReport env w] ++ connectWiFiJoined env n) ∨
        (tickStatus env w ≠ env.WL_CONNECTED ∧ joinFails env w 10 ∧
          net = [.wifiScanNetworks, scanReport env w] ++ connectWiFiGaveUp env)) ∧
      calls Event.isMqttConnect ([.wifiStatus] ++ net ++ [.mqttConnected]) = 0 ∧
      (∀ w1, loop env fuel w = some w1 →
        ∃ rest, w1.trace = w.trace ++ ([.wifiStatus] ++ net ++ [.mqttConnected]) ++ rest ∧
          (1 ≤ calls Event.isMqttConnect rest ↔ tickConnected env w = false)) ∧
      (loop env fuel w = none →
        tickConnected env w = false ∧
          connectMQTT env fuel (w.extend ([.wifiStatus] ++ net ++ [.mqttConnected])) = none) := by
  obtain ⟨net, hnet, hN⟩ := loopNetwork_eq env w
  have hn0 := netPart_calls_eq_zero env w net hnet Event.isMqttConnect (fun _ => rfl)
    (fun _ => rfl) (fun _ _ => rfl) (fun _ => rfl) rfl
  refine ⟨net, hnet, ?_, ?_, loop_none_of_net env fuel w net hnet hN⟩
  · simp [hn0, Event.isMqttConnect]
  · intro w1 h
    obtain ⟨mq, hmq, hw1⟩ := loop_some_of_net env fuel w w1 net hnet hN h
    have hmqc : (1 ≤ calls Event.isMqttConnect mq ↔ tickConnected env w = false) := by
      rcases hmq with ⟨hc, rfl⟩ | ⟨hc, n, _, _, _, rfl⟩
      · simp [hc]
      · simp [hc, connectMQTTDone, connectRetry, Event.isMqttConnect]
    have hi := calls_inboundCalls_eq_zero Event.isMqttConnect rfl rfl (fun _ => rfl)
      (fun _ => rfl) (fun _ => rfl) rfl (tickInbound env w)
    have hp : calls Event.isMqttConnect (tickPost env w) = 0 := by
      rw [calls_tickPost env w Event.isMqttConnect rfl]
      split <;> simp [publishCalls, Event.isMqttConnect]
    refine ⟨mq ++ [.mqttPoll] ++ inboundCalls (tickInbound env w) ++ tickPost env w, ?_, ?_⟩
    · rw [hw1]; simp
    · simpa [hi, hp, Event.isMqttConnect] using hmqc

/-- C9 amended, witness: a tick whose `connectWiFi` joins on its second call and
whose `connectMQTT` connects on its first call. -/
theorem C9_witness :
    ∃ net rest,
      (World.init.extend
        ([.wifiStatus, .wifiScanNetworks, .serialPrintln "Discovered 2 Networks"] ++
          connectWiFiJoined (stubEnv 6 1 false 0 1) 1 ++ [.mqttConnected] ++
          connectMQTTDone (stubEnv 6 1 false 0 1) 0 ++ [.mqttPoll, .millis])).trace =
        World.init.trace ++ ([.wifiStatus] ++ net ++ [.mqttConnected]) ++ rest ∧
      (1 ≤ calls Event.isMqttConnect rest ↔
        tickConnected (stubEnv 6 1 false 0 1) World.init = false) := by
  obtain ⟨net, _, _, hsome, _⟩ :=
    C9_loop_connect_after_network_check (stubEnv 6 1 false 0 1) 1 World.init
  obtain ⟨rest, h1, h2⟩ := hsome _
    ((loop_of_parts (stubEnv 6 1 false 0 1) 1 World.init
      ([.wifiScanNetworks, scanReport (stubEnv 6 1 false 0 1) World.init] ++
        connectWiFiJoined (stubEnv 6 1 false 0 1) 1)
      (connectMQTTDone (stubEnv 6 1 false 0 1) 0)
      (Or.inr (Or.inl ⟨by decide, 1, by decide, by decide, by decide, rfl⟩))
      (Or.inr ⟨by decide, 0, by decide, by decide, by decide, rfl⟩)).trans rfl)
  exact ⟨net, rest, h1, h2⟩

/-- C10: every tick of `loop` that completes makes its calls in the order
`WiFi.status()`, network part `net`, `mqttClient.connected()`, session part
`mq`, `mqttClient.poll()`, the calls of `onMessageReceived` for the inbound
messages that this poll receives, rest `post`.  The poll is the only poll of
the tick; no join call and no secure connect call comes after it; no message is
begun before it has returned; and `post` is one `millis()` call when no
publish is due and two `millis()` calls followed by the calls of
`publishMessage` when one is.  `net` is empty when the status is
`WL_CONNECTED` and otherwise is one scan, its report and an invocation of
`connectWiFi`; `mq` is empty when `mqttClient.connected()` is true and
otherwise is an invocation of `connectMQTT`. -/
theorem C10_loop_polls_once (env : Env) (fuel : Nat) (w w1 : World)
    (h : loop env fuel w = some w1) :
    ∃ net mq post,
      w1.trace = w.trace ++ ([.wifiStatus] ++ net ++ [.mqttConnected] ++ mq) ++
        [.mqttPoll] ++ inboundCalls (tickInbound env w) ++ post ∧
      mqttClient.poll env (w.extend ([.wifiStatus] ++ net ++ [.mqttConnected] ++ mq)) =
        (w.received (tickInbound env w)).extend
          ([.wifiStatus] ++ net ++ [.mqttConnected] ++ mq ++ [.mqttPoll] ++
            inboundCalls (tickInbound env w)) ∧
      calls Event.isMqttPoll ([.wifiStatus] ++ net ++ [.mqttConnected] ++ mq) = 0 ∧
      calls Event.isMqttPoll (inboundCalls (tickInbound env w) ++ post) = 0 ∧
      calls Event.isWifiBegin (inboundCalls (tickInbound env w) ++ post) = 0 ∧
      calls Event.isMqttConnect (inboundCalls (tickInbound env w) ++ post) = 0 ∧
      calls Event.isMqttBeginMessage
        ([.wifiStatus] ++ net ++ [.mqttConnected] ++ mq ++ [.mqttPoll] ++
          inboundCalls (tickInbound env w)) = 0 ∧
      (1000 < tickElapsed env w →
        post = [.millis, .millis] ++ publishCalls env (calls Event.isRandom w.trace)) ∧
      (¬ 1000 < tickElapsed env w → post = [.millis]) ∧
      (tickStatus env w = env.WL_CONNECTED → net = []) ∧
      (tickStatus env w ≠ env.WL_CONNECTED →
        connectWiFi env (w.extend [.wifiStatus, .wifiScanNetworks, scanReport env w]) =
            w.extend ([.wifiStatus] ++ net) ∧
          calls Event.isWifiScanNetworks net = 1 ∧ 1 ≤ calls Event.isWifiBegin net) ∧
      (tickConnected env w = true → mq = []) ∧
      (tickConnected env w = false →
        connectMQTT env fuel (w.extend ([.wifiStatus] ++ net ++ [.mqttConnected])) =
            some (w.extend ([.wifiStatus] ++ net ++ [.mqttConnected] ++ mq)) ∧
          1 ≤ calls Event.isMqttConnect mq) ∧
      calls Event.isMqttConnect net = 0 ∧
      calls Event.isWifiBegin mq = 0 := by
  obtain ⟨net, mq, hnet, hmq, hw1⟩ := loop_some env fuel w w1 h
  have hnz := netPart_calls_eq_zero env w net hnet
  have hmz := mqttPart_calls_eq_zero env fuel w mq hmq
  have hiz := fun p h1 h2 h3 h4 h5 h6 =>
    calls_inboundCalls_eq_zero p h1 h2 h3 h4 h5 h6 (tickInbound env w)
  have hN := loopNetwork_of env w net hnet
  have hS := loopSession_of env fuel w net mq hnet hmq
  have hpre : calls Event.isMqttPoll ([.wifiStatus] ++ net ++ [.mqttConnected] ++ mq) = 0 := by
    simp [hnz Event.isMqttPoll (fun _ => rfl) (fun _ => rfl) (fun _ _ => rfl) (fun _ => rfl) rfl,
      hmz Event.isMqttPoll (fun _ => rfl) (fun _ => rfl) (fun _ _ => rfl) (fun _ => rfl)
        (fun _ => rfl), Event.isMqttPoll]
  refine ⟨net, mq, tickPost env w, ?_, ?_, hpre, ?_, ?_, ?_, ?_, ?_, ?_, ?_, ?_, ?_, ?_, ?_, ?_⟩
  · rw [hw1]; simp
  · rw [poll_eq]
    simp only [World.extend_trace, calls_append, hpre, Nat.add_zero, World.received_extend,
      World.extend_extend, tickInbound]
    simp
  · rw [calls_append, hiz Event.isMqttPoll rfl rfl (fun _ => rfl) (fun _ => rfl) (fun _ => rfl)
      rfl, calls_tickPost env w Event.isMqttPoll rfl]
    split <;> simp [publishCalls, Event.isMqttPoll]
  · rw [calls_append, hiz Event.isWifiBegin rfl rfl (fun _ => rfl) (fun _ => rfl) (fun _ => rfl)
      rfl, calls_tickPost env w Event.isWifiBegin rfl]
    split <;> simp [publishCalls, Event.isWifiBegin]
  · rw [calls_append, hiz Event.isMqttConnect rfl rfl (fun _ => rfl) (fun _ => rfl)
      (fun _ => rfl) rfl, calls_tickPost env w Event.isMqttConnect rfl]
    split <;> simp [publishCalls, Event.isMqttConnect]
  · simp [hnz Event.isMqttBeginMessage (fun _ => rfl) (fun _ => rfl) (fun _ _ => rfl)
        (fun _ => rfl) rfl,
      hmz Event.isMqttBeginMessage (fun _ => rfl) (fun _ => rfl) (fun _ _ => rfl) (fun _ => rfl)
        (fun _ => rfl),
      hiz Event.isMqttBeginMessage rfl rfl (fun _ => rfl) (fun _ => rfl) (fun _ => rfl) rfl,
      Event.isMqttBeginMessage]
  · intro hd; simp [tickPost, hd]
  · intro hd; simp [tickPost, hd]
  · intro hs
    rcases hnet with ⟨_, hn⟩ | ⟨hs2, _⟩ | ⟨hs2, _⟩
    · exact hn
    · exact absurd hs hs2
    · exact absurd hs hs2
  · intro hs
    have hs2 : env.wifiStatus (calls Event.isWifiStatus w.trace) ≠ env.WL_CONNECTED := hs
    refine ⟨?_, ?_, ?_⟩
    · rw [← hN]
      simp [loopNetwork, WiFi.status, hs2, WiFi.scanNetworks, Serial.println, scanReport,
        Event.isWifiScanNetworks]
    · rcases hnet with ⟨hs3, _⟩ | ⟨_, n, _, _, _, rfl⟩ | ⟨_, _, rfl⟩
      · exact absurd hs3 hs
      · simp [connectWiFiJoined, connectWiFiBanner, joinRetry, scanReport,
          Event.isWifiScanNetworks]
      · simp [connectWiFiGaveUp, connectWiFiBanner, joinRetry, scanReport,
          Event.isWifiScanNetworks]
    · rcases hnet with ⟨hs3, _⟩ | ⟨_, n, _, _, _, rfl⟩ | ⟨_, _, rfl⟩
      · exact absurd hs3 hs
      · simp [connectWiFiJoined, connectWiFiBanner, joinRetry, scanReport, Event.isWifiBegin]
      · simp [connectWiFiGaveUp, connectWiFiBanner, joinRetry, scanReport, Event.isWifiBegin]
  · intro hc
    rcases hmq with ⟨_, hm⟩ | ⟨hc2, _⟩
    · exact hm
    · rw [hc] at hc2; cases hc2
  · intro hc
    have hz := hnz Event.isMqttConnected (fun _ => rfl) (fun _ => rfl) (fun _ _ => rfl)
      (fun _ => rfl) rfl
    have hc3 : env.mqttConnected (calls Event.isMqttConnected w.trace) = false := hc
    refine ⟨?_, ?_⟩
    · rw [← hS]
      simp [loopSession, mqttClient.connected, hz, Event.isMqttConnected, hc3]
    · rcases hmq with ⟨hc2, _⟩ | ⟨_, n, _, _, _, rfl⟩
      · rw [hc] at hc2; cases hc2
      · simp [connectMQTTDone, connectRetry, Event.isMqttConnect]
  · exact hnz Event.isMqttConnect (fun _ => rfl) (fun _ => rfl) (fun _ _ => rfl) (fun _ => rfl) rfl
  · exact hmz Event.isWifiBegin (fun _ => rfl) (fun _ => rfl) (fun _ _ => rfl) (fun _ => rfl)
      (fun _ => rfl)

/-- The tick from reset with the libraries `inboundEnv`. -/
theorem loop_firstTick : loop inboundEnv 3 World.init = some afterFirstTick :=
  (loop_of_parts inboundEnv 3 World.init
    ([.wifiScanNetworks, scanReport inboundEnv World.init] ++ connectWiFiJoined inboundEnv 3)
    (connectMQTTDone inboundEnv 2)
    (Or.inr (Or.inl ⟨by decide, 3, by decide, by decide, by decide, rfl⟩))
    (Or.inr ⟨by decide, 2, by decide, by decide, by decide, rfl⟩)).trans rfl

/-- C10, witness: a tick that joins the network, connects the session, receives
one message in its poll and publishes: one poll, after the last connect call;
the handler calls follow the poll and the publish follows them. -/
theorem C10_witness :
    ∃ net mq post,
      afterFirstTick.trace = World.init.trace ++
        ([.wifiStatus] ++ net ++ [.mqttConnected] ++ mq) ++ [.mqttPoll] ++
        [.serialPrint "Received a message with topic '", .mqttMessageTopic,
         .serialPrint "arduino/incoming", .serialPrint "', length ", .serialPrint "2",
         .serialPrintln " bytes:",
         .mqttAvailable, .mqttRead, .serialPrintChar 104,
         .mqttAvailable, .mqttRead, .serialPrintChar 105,
         .mqttAvailable, .serialPrintln "", .serialPrintln ""] ++ post ∧
      calls Event.isMqttPoll ([.wifiStatus] ++ net ++ [.mqttConnected] ++ mq) = 0 ∧
      calls Event.isMqttPoll (inboundCalls (tickInbound inboundEnv World.init) ++ post) = 0 ∧
      calls Event.isWifiBegin (inboundCalls (tickInbound inboundEnv World.init) ++ post) = 0 ∧
      calls Event.isMqttConnect (inboundCalls (tickInbound inboundEnv World.init) ++ post) = 0 ∧
      post = [.millis, .millis] ++ publishCalls inboundEnv 0 := by
  obtain ⟨net, mq, post, h1, _, h2, h3, h4, h5, _, h6, _⟩ :=
    C10_loop_polls_once inboundEnv 3 World.init afterFirstTick loop_firstTick
  exact ⟨net, mq, post, h1, h2, h3, h4, h5, h6 (by decide)⟩

/-- What one completed tick does to the number of messages begun, to the number
of `millis()` calls and to `lastMillis`. -/
theorem loop_summary (env : Env) (fuel : Nat) (w w1 : World) (h : loop env fuel w = some w1) :
    calls Event.isMqttBeginMessage w1.trace =
        calls Event.isMqttBeginMessage w.trace + (if 1000 < tickElapsed env w then 1 else 0) ∧
      calls Event.isMillis w1.trace =
        calls Event.isMillis w.trace + (if 1000 < tickElapsed env w then 2 else 1) ∧
      w1.lastMillis =
        (if 1000 < tickElapsed env w then env.clock (calls Event.isMillis w.trace + 1) % 2 ^ 32
          else w.lastMillis) := by
  obtain ⟨net, mq, hnet, hmq, hw1⟩ := loop_some env fuel w w1 h
  have hb1 := netPart_calls_eq_zero env w net hnet Event.isMqttBeginMessage (fun _ => rfl)
    (fun _ => rfl) (fun _ _ => rfl) (fun _ => rfl) rfl
  have hb2 := mqttPart_calls_eq_zero env fuel w mq hmq Event.isMqttBeginMessage (fun _ => rfl)
    (fun _ => rfl) (fun _ _ => rfl) (fun _ => rfl) (fun _ => rfl)
  have hb3 := calls_inboundCalls_eq_zero Event.isMqttBeginMessage rfl rfl (fun _ => rfl)
    (fun _ => rfl) (fun _ => rfl) rfl (tickInbound env w)
  have hm1 := netPart_calls_eq_zero env w net hnet Event.isMillis (fun _ => rfl)
    (fun _ => rfl) (fun _ _ => rfl) (fun _ => rfl) rfl
  have hm2 := mqttPart_calls_eq_zero env fuel w mq hmq Event.isMillis (fun _ => rfl)
    (fun _ => rfl) (fun _ _ => rfl) (fun _ => rfl) (fun _ => rfl)
  have hm3 := calls_inboundCalls_eq_zero Event.isMillis rfl rfl (fun _ => rfl)
    (fun _ => rfl) (fun _ => rfl) rfl (tickInbound env w)
  refine ⟨?_, ?_, ?_⟩
  · rw [hw1]
    by_cases hd : 1000 < tickElapsed env w <;>
      simp [hd, hb1, hb2, hb3, tickPost, publishCalls, Event.isMqttBeginMessage]
  · rw [hw1]
    by_cases hd : 1000 < tickElapsed env w <;>
      simp [hd, hm1, hm2, hm3, tickPost, publishCalls, Event.isMillis]
  · rw [hw1]; simp

/-- Ticks never lower the number of messages begun. -/
theorem runLoop_begin_mono (env : Env) (fuel : Nat) :
    ∀ (n : Nat) (w wn : World), runLoop env fuel n w = some wn →
      calls Event.isMqttBeginMessage w.trace ≤ calls Event.isMqttBeginMessage wn.trace := by
  intro n
  induction n with
  | zero =>
    intro w wn h
    simp only [runLoop, Option.some.injEq] at h
    rw [h]
  | succ n ih =>
    intro w wn h
    cases hl : loop env fuel w with
    | none => simp [runLoop, hl] at h
    | some w1 =>
      simp only [runLoop, hl] at h
      have h1 := (loop_summary env fuel w w1 hl).1
      have h2 := ih w1 wn h
      omega

/-- Ticks that begin no message leave `lastMillis` unchanged, and time goes on. -/
theorem runLoop_quiet (env : Env) (fuel : Nat) :
    ∀ (n : Nat) (w wn : World), runLoop env fuel n w = some wn →
      calls Event.isMqttBeginMessage wn.trace = calls Event.isMqttBeginMessage w.trace →
      wn.lastMillis = w.lastMillis ∧ calls Event.isMillis w.trace ≤ calls Event.isMillis wn.trace := by
  intro n
  induction n with
  | zero =>
    intro w wn h _
    simp only [runLoop, Option.some.injEq] at h
    rw [h]
    exact ⟨rfl, le_refl _⟩
  | succ n ih =>
    intro w wn h hcount
    cases hl : loop env fuel w with
    | none => simp [runLoop, hl] at h
    | some w1 =>
      simp only [runLoop, hl] at h
      obtain ⟨h1, h2, h3⟩ := loop_summary env fuel w w1 hl
      have hmono := runLoop_begin_mono env fuel n w1 wn h
      by_cases hd : 1000 < tickElapsed env w
      · simp only [hd, if_true] at h1
        omega
      · simp only [hd, if_false, Nat.add_zero] at h1 h2 h3
        obtain ⟨h4, h5⟩ := ih w1 wn h (by omega)
        exact ⟨h4.trans h3, by omega⟩

/-- C7: in every tick of `loop`, with `elapsed` the value of
`millis() - lastMillis` in unsigned 32-bit arithmetic.  (1) `elapsed` is the
value below `2 ^ 32` that, added to `lastMillis`, gives the value of `millis()`
modulo `2 ^ 32`; so when `lastMillis` was read from the same clock at most
`2 ^ 32 - 1` ms earlier, `elapsed` is the time that passed, however often the
counter wrapped around in between.  (2) A tick that completes with
`elapsed > 1000` stores the value of a second `millis()` call in `lastMillis`
and then runs `publishMessage`, once, which begins exactly one message; a tick
that completes with `elapsed ≤ 1000` begins no message and leaves `lastMillis`
unchanged.  (3) A tick that does not complete is still running `connectMQTT`,
before any `millis()` call and with no message begun.  (4) Hence, when the
clock never runs backwards and this tick publishes, and after any number of
ticks that do not publish a later tick publishes again, more than 1000 ms lie
between the `millis()` call that stamped the first publish and the `millis()`
call in the condition of the later one, and so between the stamps of the two
publishes. -/
theorem C7_loop_publish_period (env : Env) (fuel : Nat) (w : World) :
    (tickElapsed env w < 2 ^ 32 ∧
        (tickElapsed env w + w.lastMillis) % 2 ^ 32 =
          env.clock (calls Event.isMillis w.trace) % 2 ^ 32 ∧
        ∀ a, a ≤ env.clock (calls Event.isMillis w.trace) →
          env.clock (calls Event.isMillis w.trace) - a < 2 ^ 32 →
          w.lastMillis = a % 2 ^ 32 →
          tickElapsed env w = env.clock (calls Event.isMillis w.trace) - a) ∧
      (∀ w1, loop env fuel w = some w1 →
        (1000 < tickElapsed env w →
          (∃ v, v.lastMillis = w.lastMillis ∧
            calls Event.isMqttBeginMessage v.trace = calls Event.isMqttBeginMessage w.trace ∧
            calls Event.isMillis v.trace = calls Event.isMillis w.trace + 1 ∧
            w1 = publishMessage env { (millis env v).2 with lastMillis := (millis env v).1 }) ∧
          calls Event.isMqttBeginMessage w1.trace =
            calls Event.isMqttBeginMessage w.trace + 1 ∧
          w1.lastMillis = env.clock (calls Event.isMillis w.trace + 1) % 2 ^ 32) ∧
        (¬ 1000 < tickElapsed env w →
          calls Event.isMqttBeginMessage w1.trace = calls Event.isMqttBeginMessage w.trace ∧
          w1.lastMillis = w.lastMillis)) ∧
      (loop env fuel w = none →
        tickConnected env w = false ∧
        ∃ pre, calls Event.isMqttBeginMessage pre = 0 ∧ calls Event.isMillis pre = 0 ∧
          connectMQTT env fuel (w.extend pre) = none) ∧
      (Monotone env.clock → 1000 < tickElapsed env w →
        ∀ (w1 : World) (n : Nat) (wn w2 : World), loop env fuel w = some w1 →
          runLoop env fuel n w1 = some wn →
          calls Event.isMqttBeginMessage wn.trace = calls Event.isMqttBeginMessage w1.trace →
          loop env fuel wn = some w2 → 1000 < tickElapsed env wn →
          env.clock (calls Event.isMillis w.trace + 1) + 1000 <
              env.clock (calls Event.isMillis wn.trace) ∧
            w2.lastMillis = env.clock (calls Event.isMillis wn.trace + 1) % 2 ^ 32 ∧
            env.clock (calls Event.isMillis w.trace + 1) + 1000 <
              env.clock (calls Event.isMillis wn.trace + 1)) := by
  refine ⟨⟨?_, ?_, ?_⟩, ?_, ?_, ?_⟩
  · exact (elapsed32_spec _ _).1
  · have h := (elapsed32_spec (env.clock (calls Event.isMillis w.trace) % 2 ^ 32)
      w.lastMillis).2
    rw [Nat.mod_mod] at h
    exact h
  · intro a ha hlt hlast
    unfold tickElapsed
    rw [hlast]
    exact elapsed32_clock a _ ha hlt
  · intro w1 h
    obtain ⟨hs1, hs2, hs3⟩ := loop_summary env fuel w w1 h
    refine ⟨?_, ?_⟩
    · intro hd
      simp only [hd, if_true] at hs1 hs3
      refine ⟨?_, hs1, hs3⟩
      obtain ⟨net, mq, hnet, hmq, hw1⟩ := loop_some env fuel w w1 h
      have hb1 := netPart_calls_eq_zero env w net hnet Event.isMqttBeginMessage (fun _ => rfl)
        (fun _ => rfl) (fun _ _ => rfl) (fun _ => rfl) rfl
      have hb2 := mqttPart_calls_eq_zero env fuel w mq hmq Event.isMqttBeginMessage
        (fun _ => rfl) (fun _ => rfl) (fun _ _ => rfl) (fun _ => rfl) (fun _ => rfl)
      have hb3 := calls_inboundCalls_eq_zero Event.isMqttBeginMessage rfl rfl (fun _ => rfl)
        (fun _ => rfl) (fun _ => rfl) rfl (tickInbound env w)
      have hm1 := netPart_calls_eq_zero env w net hnet Event.isMillis (fun _ => rfl)
        (fun _ => rfl) (fun _ _ => rfl) (fun _ => rfl) rfl
      have hm2 := mqttPart_calls_eq_zero env fuel w mq hmq Event.isMillis (fun _ => rfl)
        (fun _ => rfl) (fun _ _ => rfl) (fun _ => rfl) (fun _ => rfl)
      have hm3 := calls_inboundCalls_eq_zero Event.isMillis rfl rfl (fun _ => rfl)
        (fun _ => rfl) (fun _ => rfl) rfl (tickInbound env w)
      have hr1 := netPart_calls_eq_zero env w net hnet Event.isRandom (fun _ => rfl)
        (fun _ => rfl) (fun _ _ => rfl) (fun _ => rfl) rfl
      have hr2 := mqttPart_calls_eq_zero env fuel w mq hmq Event.isRandom (fun _ => rfl)
        (fun _ => rfl) (fun _ _ => rfl) (fun _ => rfl) (fun _ => rfl)
      have hr3 := calls_inboundCalls_eq_zero Event.isRandom rfl rfl (fun _ => rfl)
        (fun _ => rfl) (fun _ => rfl) rfl (tickInbound env w)
      refine ⟨(w.received (tickInbound env w)).extend
        ([.wifiStatus] ++ net ++ [.mqttConnected] ++ mq ++ [.mqttPoll] ++
          inboundCalls (tickInbound env w) ++ [.millis]), ?_, ?_, ?_, ?_⟩
      · simp
      · simp [hb1, hb2, hb3, Event.isMqttBeginMessage]
      · simp [hm1, hm2, hm3, Event.isMillis]
      · rw [hw1, publishMessage_eq]
        simp [tickEnd, tickPost, hd, millis, World.extend, publishCalls, hr1, hr2, hr3, hm1,
          hm2, hm3, Event.isRandom, Event.isMillis]
    · intro hd
      simp only [hd, if_false, Nat.add_zero] at hs1 hs3
      exact ⟨hs1, hs3⟩
  · intro h
    obtain ⟨net, hnet, hN⟩ := loopNetwork_eq env w
    obtain ⟨hc, hq⟩ := loop_none_of_net env fuel w net hnet hN h
    refine ⟨hc, [Event.wifiStatus] ++ net ++ [Event.mqttConnected], ?_, ?_, ?_⟩
    · simp [netPart_calls_eq_zero env w net hnet Event.isMqttBeginMessage (fun _ => rfl)
        (fun _ => rfl) (fun _ _ => rfl) (fun _ => rfl) rfl, Event.isMqttBeginMessage]
    · simp [netPart_calls_eq_zero env w net hnet Event.isMillis (fun _ => rfl)
        (fun _ => rfl) (fun _ _ => rfl) (fun _ => rfl) rfl, Event.isMillis]
    · exact hq
  · intro hmono hd w1 n wn w2 h hrun hcount hl2 hd2
    obtain ⟨_, hs2, hs3⟩ := loop_summary env fuel w w1 h
    simp only [hd, if_true] at hs2 hs3
    obtain ⟨hq1, hq2⟩ := runLoop_quiet env fuel n w1 wn hrun hcount
    obtain ⟨_, _, ht3⟩ := loop_summary env fuel wn w2 hl2
    simp only [hd2, if_true] at ht3
    have hle : env.clock (calls Event.isMillis w.trace + 1) ≤
        env.clock (calls Event.isMillis wn.trace) := hmono (by omega)
    have hle2 : env.clock (calls Event.isMillis wn.trace) ≤
        env.clock (calls Event.isMillis wn.trace + 1) := hmono (by omega)
    have hsub := elapsed32_le _ _ hle
    have hel : tickElapsed env wn =
        elapsed32 (env.clock (calls Event.isMillis wn.trace) % 2 ^ 32)
          (env.clock (calls Event.isMillis w.trace + 1) % 2 ^ 32) := by
      unfold tickElapsed
      rw [hq1, hs3]
    rw [hel] at hd2
    refine ⟨by omega, ht3, by omega⟩

/-- The clock of `wrapEnv` never runs backwards. -/
theorem wrapEnv_clock_mono : Monotone wrapEnv.clock := by
  intro i j hij
  show 4294966499 + 501 * i ≤ 4294966499 + 501 * j
  omega

/-- C7, witness, across a wraparound of the counter: the tick from reset
publishes and is stamped 4294967000; the next tick reads 205, which is 501 ms
later, and does not publish; the tick after it reads 706, which is 1002 ms
after the stamp, and publishes again. -/
theorem C7_witness :
    loop wrapEnv 0 World.init = some wrap1 ∧
      wrap1.lastMillis = 4294967000 ∧
      runLoop wrapEnv 0 1 wrap1 = some wrap2 ∧
      wrap2.lastMillis = 4294967000 ∧
      wrapEnv.clock (calls Event.isMillis wrap2.trace) % 2 ^ 32 = 706 ∧
      tickElapsed wrapEnv wrap2 = 1002 ∧
      loop wrapEnv 0 wrap2 = some wrap3 ∧
      calls Event.isMqttBeginMessage wrap3.trace =
        calls Event.isMqttBeginMessage wrap2.trace + 1 ∧
      wrapEnv.clock (calls Event.isMillis World.init.trace + 1) + 1000 <
        wrapEnv.clock (calls Event.isMillis wrap2.trace) := by
  have h01 : loop wrapEnv 0 World.init = some wrap1 := by rfl
  have h12 : runLoop wrapEnv 0 1 wrap1 = some wrap2 := by rfl
  have h23 : loop wrapEnv 0 wrap2 = some wrap3 := by rfl
  have hd0 : 1000 < tickElapsed wrapEnv World.init := by decide
  obtain ⟨_, hpub0, _, hperiod⟩ := C7_loop_publish_period wrapEnv 0 World.init
  obtain ⟨⟨_, _, hreal⟩, hpub2, _, _⟩ := C7_loop_publish_period wrapEnv 0 wrap2
  have hel : tickElapsed wrapEnv wrap2 = 1002 :=
    hreal 4294967000 (by decide) (by decide) (by decide)
  have hd2 : 1000 < tickElapsed wrapEnv wrap2 := by rw [hel]; decide
  obtain ⟨_, _, hstamp⟩ := (hpub0 wrap1 h01).1 hd0
  obtain ⟨_, hcount, _⟩ := (hpub2 wrap3 h23).1 hd2
  obtain ⟨hgap, _, _⟩ :=
    hperiod wrapEnv_clock_mono hd0 wrap1 1 wrap2 wrap3 h01 h12 (by decide) h23 hd2
  exact ⟨h01, hstamp, h12, rfl, by decide, hel, h23, hcount, hgap⟩

end AwsIotWiFi
